import Mathlib

/-!
# Home Weather Station web interface (`esp32s3_central/data/app.js`)

A shallow embedding of the browser-side script of the weather station and the
proofs of its specified properties.

The file has three layers.

* **Runtime**: the parts of ECMAScript the script relies on (number values,
  `Number.prototype.toFixed`, number-to-string and string-to-number conversion,
  `ToPrimitive` on JSON values, truthiness, property access).
* **Program**: the functions of `app.js` that carry the specified behaviour,
  each under its own name (the four blocks of `handleSensorUpdate` are
  definitions of their own), over an explicit page state (view-model, DOM
  elements, console, timers, sockets, requests).
* **Theorems**: the specified properties.

## Numbers

A finite JavaScript number is modelled by its exact value, a rational; the
three non-finite values are separate constructors.  Every IEEE double is a
rational, so a statement about all rationals covers all finite doubles.  The
sign of zero is not tracked: the script never divides by a variable and both
zeros print as `0`, so no observable result depends on it.  Arithmetic whose
IEEE result is rounded (`/`, `-`) is rounded here too, by `roundToDouble`.
-/

namespace WeatherStation

/-! ## Runtime: number values -/

/-- A JavaScript number: a finite value (the exact value of the double), one of
the two infinities, or NaN. -/
inductive JNum where
  | fin (q : ℚ)
  | posInf
  | negInf
  | nan
deriving DecidableEq

deriving instance DecidableEq for Except

/-- Exceptions the script can raise. -/
inductive JSError where
  | typeError
  | syntaxError
  | httpError (status : Nat)
  | networkError
deriving DecidableEq, Repr

/-- Floor of the binary logarithm of a positive natural number (`fuel` bounds
the number of halvings; `n` itself always suffices). -/
def log2Fuel : Nat → Nat → Nat
  | 0, _ => 0
  | fuel + 1, n => if n < 2 then 0 else log2Fuel fuel (n / 2) + 1

/-- Floor of the binary logarithm of the positive rational `n / d`. -/
def floorLog2 (n d : Nat) : Int :=
  if d ≤ n then (log2Fuel (n / d) (n / d) : Int)
  else
    let t := log2Fuel (d / n) (d / n)
    if d ≤ n * 2 ^ t then -(t : Int) else -((t : Int) + 1)

/-- The integer nearest to `n / d`, ties to the even one. -/
def roundHalfEven (n d : Nat) : Nat :=
  let q := n / d
  let r := n % d
  if 2 * r < d then q else if d < 2 * r then q + 1 else if q % 2 = 0 then q else q + 1

/-- The rational `m * 2 ^ p`. -/
def scale2 (m : Nat) (p : Int) : ℚ :=
  if 0 ≤ p then ((m * 2 ^ p.toNat : ℕ) : ℚ) else mkRat m (2 ^ (-p).toNat)

/-- The exponent of the unit in the last place of the binade of `n / d`:
53 significant bits, exponents clamped below at the subnormal range. -/
def ulpExp (n d : Nat) : Int :=
  max (floorLog2 n d) (-1022) - 52

/-- The significand, in units in the last place, that round-to-nearest-even
gives the positive rational `n / d`. -/
def significand (n d : Nat) : Nat :=
  let p := ulpExp n d
  if 0 ≤ p then roundHalfEven n (d * 2 ^ p.toNat) else roundHalfEven (n * 2 ^ (-p).toNat) d

/-- IEEE 754 binary64 round-to-nearest-even of the positive rational `n / d`;
values that round to `2 ^ 1024` or more overflow to `Infinity`. -/
def roundPos (n d : Nat) : JNum :=
  let p := ulpExp n d
  let m := significand n d
  if 971 < p ∨ (p = 971 ∧ 2 ^ 53 ≤ m) then JNum.posInf else JNum.fin (scale2 m p)

/-- Negation of a number value. -/
def JNum.neg : JNum → JNum
  | .fin q => .fin (-q)
  | .posInf => .negInf
  | .negInf => .posInf
  | .nan => .nan

/-- The double nearest to a real (rational) value: what every rounded
arithmetic operation returns. -/
def roundToDouble (q : ℚ) : JNum :=
  if q = 0 then .fin 0
  else if 0 < q then roundPos q.num.natAbs q.den
  else (roundPos q.num.natAbs q.den).neg

/-- The operator `x / c` for a positive literal divisor `c`. -/
def JNum.divLit (x : JNum) (c : ℕ) : JNum :=
  match x with
  | .fin q => roundToDouble (q / c)
  | other => other

/-- The operator `x % c` for a positive literal divisor `c`: the remainder has
the sign of the dividend and is exact; a non-finite dividend gives NaN. -/
def JNum.modLit (x : JNum) (c : ℕ) : JNum :=
  match x with
  | .fin q => if 0 ≤ q then .fin (q - c * ⌊q / c⌋) else .fin (q + c * ⌊-q / c⌋)
  | _ => .nan

/-- The operator `a - x` for an integer `a` (here `Date.now()`). -/
def JNum.rsub (a : ℤ) (x : JNum) : JNum :=
  match x with
  | .fin q => roundToDouble (a - q)
  | .posInf => .negInf
  | .negInf => .posInf
  | .nan => .nan

/-- The function `Math.floor`. -/
def JNum.floor : JNum → JNum
  | .fin q => .fin ⌊q⌋
  | other => other

/-- The function `Math.round`: the nearest integer, ties towards `+Infinity`. -/
def JNum.round : JNum → JNum
  | .fin q => .fin ⌊q + 1 / 2⌋
  | other => other

/-- The comparison `x < y` of two numbers (false when either is NaN). -/
def JNum.lt : JNum → JNum → Bool
  | .nan, _ => false
  | _, .nan => false
  | .fin a, .fin b => decide (a < b)
  | .negInf, .negInf => false
  | .negInf, _ => true
  | _, .negInf => false
  | .posInf, _ => false
  | .fin _, .posInf => true

/-! ## Runtime: numbers to text -/

/-- Decimal digits of a natural number. -/
def digits (n : Nat) : String := Nat.repr n

/-- A string of `n` zeros. -/
def zeros (n : Nat) : String := String.mk (List.replicate n '0')

/-- The value `s * 10 ^ a` as a fraction (numerator, denominator). -/
def scale10 (s : Nat) (a : Int) : Nat × Nat :=
  if 0 ≤ a then (s * 10 ^ a.toNat, 1) else (s, 10 ^ (-a).toNat)

/-- First estimate of the decimal exponent `n` of the positive rational
`num / den` (the number of integer digits, or minus the number of leading
fractional zeros). -/
def decExpEstimate (num den : Nat) : Int :=
  if den ≤ num then ((digits (num / den)).length : Int)
  else 1 - ((digits (den / num)).length : Int)

/-- The candidates `(n, s)` with exactly `k` digits for printing the positive
double `q`: `10 ^ (k - 1) ≤ s < 10 ^ k` and `s * 10 ^ (n - k)` rounds to `q`.
Only the two integers `s` next to `q / 10 ^ (n - k)` can be the closest. -/
def digitCandidates (q : ℚ) (k : Nat) : List (Int × Nat) :=
  let num := q.num.natAbs
  let est := decExpEstimate num q.den
  [est, est + 1, est + 2].flatMap fun n =>
    let a : Int := n - k
    let lo := if 0 ≤ a then num / (q.den * 10 ^ a.toNat) else (num * 10 ^ (-a).toNat) / q.den
    [lo, lo + 1].filterMap fun s =>
      if 10 ^ (k - 1) ≤ s ∧ s < 10 ^ k ∧ roundPos (scale10 s a).1 (scale10 s a).2 = .fin q
      then some (n, s) else none

/-- The distance between `s * 10 ^ (n - k)` and `q`. -/
def candidateError (q : ℚ) (k : Nat) (c : Int × Nat) : ℚ :=
  |mkRat (scale10 c.2 (c.1 - k)).1 (scale10 c.2 (c.1 - k)).2 - q|

/-- The candidate closest to `q`; of two equally close ones the even `s`. -/
def closestCandidate (q : ℚ) (k : Nat) : List (Int × Nat) → Option (Int × Nat)
  | [] => none
  | c :: cs =>
    match closestCandidate q k cs with
    | none => some c
    | some b =>
      if candidateError q k c < candidateError q k b then some c
      else if candidateError q k b < candidateError q k c then some b
      else if c.2 % 2 = 0 then some c else some b

/-- The shortest digit string that identifies the positive double `q`:
`(k, n, s)` with `k` as small as possible (`Number::toString`, step 5).  A
double never needs more than 17 digits; for a rational that is not a double the
nearest 17-digit decimal is returned. -/
def shortestDigits (q : ℚ) : Nat × Int × Nat :=
  match (List.range 17).findSome? fun i =>
      (closestCandidate q (i + 1) (digitCandidates q (i + 1))).map fun c => (i + 1, c.1, c.2) with
  | some r => r
  | none =>
    let est := decExpEstimate q.num.natAbs q.den
    let a : Int := est - 17
    let lo := if 0 ≤ a then q.num.natAbs / (q.den * 10 ^ a.toNat)
      else (q.num.natAbs * 10 ^ (-a).toNat) / q.den
    (17, est, lo)

/-- The text of `Number::toString` for the digits `s` (of length `k`) and the
decimal exponent `n` (steps 6 to 10: plain, with a point, with leading zeros,
or exponential). -/
def layoutDigits (k : Nat) (n : Int) (s : Nat) : String :=
  let ds := digits s
  if (k : Int) ≤ n ∧ n ≤ 21 then ds ++ zeros (n - k).toNat
  else if 0 < n ∧ n ≤ 21 then
    String.mk (ds.data.take n.toNat) ++ "." ++ String.mk (ds.data.drop n.toNat)
  else if -6 < n ∧ n ≤ 0 then "0." ++ zeros (-n).toNat ++ ds
  else
    let e := n - 1
    let exp := (if 0 ≤ e then "+" else "-") ++ digits e.natAbs
    if k = 1 then ds ++ "e" ++ exp
    else String.mk (ds.data.take 1) ++ "." ++ String.mk (ds.data.drop 1) ++ "e" ++ exp

/-- The text of a positive finite number: its shortest digit string, laid
out. -/
def positiveToString (q : ℚ) : String :=
  let r := shortestDigits q
  layoutDigits r.1 r.2.1 r.2.2

/-- The abstract operation `Number::toString` (radix 10): the text a number
has in string concatenation, `String(x)` and template literals. -/
def numberToString : JNum → String
  | .nan => "NaN"
  | .posInf => "Infinity"
  | .negInf => "-Infinity"
  | .fin q =>
    if q = 0 then "0"
    else if q < 0 then "-" ++ positiveToString (-q)
    else positiveToString q

/-- The method `Number.prototype.toFixed(f)`.  A finite value below `10 ^ 21`
in magnitude is rounded to the nearest multiple of `10 ^ -f` (of two equally
near ones the larger in magnitude) and printed with exactly `f` fractional
digits; a larger or non-finite value is printed by `numberToString`. -/
def toFixed (x : JNum) (f : Nat) : String :=
  match x with
  | .fin q =>
    let sign := if q < 0 then "-" else ""
    let a := |q|
    if (10 : ℚ) ^ 21 ≤ a then sign ++ positiveToString a
    else
      let n := ⌊a * 10 ^ f + 1 / 2⌋.toNat
      let m := digits n
      if f = 0 then sign ++ m
      else
        let m := if m.length ≤ f then zeros (f + 1 - m.length) ++ m else m
        sign ++ String.mk (m.data.take (m.length - f)) ++ "." ++
          String.mk (m.data.drop (m.length - f))
  | other => numberToString other

/-! ## Runtime: text to numbers -/

/-- The characters `StringToNumber` strips from both ends: ECMAScript white
space and line terminators. -/
def isStrWhiteSpace (c : Char) : Bool :=
  c.val.toNat ∈ [0x09, 0x0A, 0x0B, 0x0C, 0x0D, 0x20, 0xA0, 0x1680, 0x2028, 0x2029, 0x202F,
    0x205F, 0x3000, 0xFEFF] || (0x2000 ≤ c.val.toNat && c.val.toNat ≤ 0x200A)

/-- The value of a digit in the given base, if the character is one. -/
def digitValue (base : Nat) (c : Char) : Option Nat :=
  let v :=
    if '0' ≤ c ∧ c ≤ '9' then c.toNat - '0'.toNat
    else if 'a' ≤ c ∧ c ≤ 'f' then c.toNat - 'a'.toNat + 10
    else if 'A' ≤ c ∧ c ≤ 'F' then c.toNat - 'A'.toNat + 10
    else base
  if v < base then some v else none

/-- The natural number written by a non-empty string of digits of the base. -/
def parseDigits (base : Nat) (cs : List Char) : Option Nat :=
  if cs = [] then none
  else cs.foldl (fun acc c => acc.bind fun n => (digitValue base c).map fun v => n * base + v)
    (some 0)

/-- The exponent part of a decimal literal: nothing, or `e`/`E`, an optional
sign and at least one digit. -/
def parseExponent (cs : List Char) : Option Int :=
  match cs with
  | [] => some 0
  | c :: rest =>
    if c = 'e' ∨ c = 'E' then
      match rest with
      | '+' :: ds => (parseDigits 10 ds).map Int.ofNat
      | '-' :: ds => (parseDigits 10 ds).map fun n => -(n : Int)
      | ds => (parseDigits 10 ds).map Int.ofNat
    else none

/-- The mathematical value of an unsigned decimal literal
(`digits[.digits][exponent]` or `.digits[exponent]`), if the text is one. -/
def parseUnsignedDecimal (cs : List Char) : Option ℚ :=
  let ip := cs.takeWhile Char.isDigit
  let r1 := cs.dropWhile Char.isDigit
  let fp := match r1 with
    | '.' :: r => r.takeWhile Char.isDigit
    | _ => []
  let r2 := match r1 with
    | '.' :: r => r.dropWhile Char.isDigit
    | _ => r1
  if ip = [] ∧ fp = [] then none
  else
    match parseDigits 10 ('0' :: (ip ++ fp)), parseExponent r2 with
    | some m, some e =>
      let a : Int := e - fp.length
      some (if 0 ≤ a then ((m * 10 ^ a.toNat : ℕ) : ℚ) else mkRat m (10 ^ (-a).toNat))
    | _, _ => none

/-- The abstract operation `StringToNumber`: the empty or blank string is `0`;
a signed decimal literal, `Infinity`, or an unsigned binary, octal or
hexadecimal integer literal is its value rounded to a double; any other text is
NaN. -/
def stringToNumber (s : String) : JNum :=
  let cs := ((s.data.dropWhile isStrWhiteSpace).reverse.dropWhile isStrWhiteSpace).reverse
  let nonDecimal (base : Nat) (ds : List Char) : JNum :=
    match parseDigits base ds with
    | some n => roundToDouble n
    | none => .nan
  let unsigned (body : List Char) : JNum :=
    if body = "Infinity".data then .posInf
    else match parseUnsignedDecimal body with
      | some q => roundToDouble q
      | none => .nan
  match cs with
  | [] => .fin 0
  | '0' :: 'x' :: ds => nonDecimal 16 ds
  | '0' :: 'X' :: ds => nonDecimal 16 ds
  | '0' :: 'o' :: ds => nonDecimal 8 ds
  | '0' :: 'O' :: ds => nonDecimal 8 ds
  | '0' :: 'b' :: ds => nonDecimal 2 ds
  | '0' :: 'B' :: ds => nonDecimal 2 ds
  | '+' :: body => unsigned body
  | '-' :: body => (unsigned body).neg
  | body => unsigned body

/-! ## Runtime: JSON values -/

/-- A JavaScript value as `JSON.parse` builds it (null, booleans, numbers,
strings, arrays, plain objects), together with `undefined`, the value of an
absent property.  An object is its list of own properties; the first entry
with a given key is the property. -/
inductive JVal where
  | undefined
  | null
  | bool (b : Bool)
  | num (n : JNum)
  | str (s : String)
  | arr (items : List JVal)
  | obj (fields : List (String × JVal))

/-- The abstract operation `ToBoolean`. -/
def JVal.truthy : JVal → Bool
  | .undefined => false
  | .null => false
  | .bool b => b
  | .num (.fin q) => decide (q ≠ 0)
  | .num .nan => false
  | .num _ => true
  | .str s => decide (s ≠ "")
  | .arr _ => true
  | .obj _ => true

/-- Property access `v.name`, for the names this script reads (none of them
is defined on a built-in prototype): reading from `undefined` or `null` throws
a TypeError; an object yields its own property or `undefined`; any other
value yields `undefined`. -/
def JVal.getProp (v : JVal) (name : String) : Except JSError JVal :=
  match v with
  | .undefined => .error .typeError
  | .null => .error .typeError
  | .obj fields => .ok ((fields.lookup name).getD .undefined)
  | _ => .ok .undefined

mutual
/-- The abstract operation `ToString` (through `ToPrimitive` for arrays and
objects).  An array is joined with commas, `null` and `undefined` elements
printing as nothing.  A plain object prints as `[object Object]`, unless it has
an own property `toString`: a JSON value is never callable, so no conversion
method is left and a TypeError is thrown. -/
def JVal.toStr : JVal → Except JSError String
  | .undefined => .ok "undefined"
  | .null => .ok "null"
  | .bool b => .ok (if b then "true" else "false")
  | .num n => .ok (numberToString n)
  | .str s => .ok s
  | .arr items => JVal.joinItems items
  | .obj fields => if fields.any (fun f => f.1 == "toString") then .error .typeError
      else .ok "[object Object]"
/-- The method `Array.prototype.join(",")` on the elements of an array. -/
def JVal.joinItems : List JVal → Except JSError String
  | [] => .ok ""
  | [x] => JVal.itemStr x
  | x :: y :: rest =>
    match JVal.itemStr x, JVal.joinItems (y :: rest) with
    | .ok a, .ok b => .ok (a ++ "," ++ b)
    | .error e, _ => .error e
    | _, .error e => .error e
/-- The text of one array element in `join`. -/
def JVal.itemStr : JVal → Except JSError String
  | .undefined => .ok ""
  | .null => .ok ""
  | .bool b => .ok (if b then "true" else "false")
  | .num n => .ok (numberToString n)
  | .str s => .ok s
  | .arr items => JVal.joinItems items
  | .obj fields => if fields.any (fun f => f.1 == "toString") then .error .typeError
      else .ok "[object Object]"
end

/-- The abstract operation `ToNumber`. -/
def JVal.toNumber : JVal → Except JSError JNum
  | .undefined => .ok .nan
  | .null => .ok (.fin 0)
  | .bool b => .ok (.fin (if b then 1 else 0))
  | .num n => .ok n
  | .str s => .ok (stringToNumber s)
  | v => v.toStr.map stringToNumber

/-- The expression `v < c` for a numeric literal `c`. -/
def JVal.ltLit (v : JVal) (c : ℕ) : Except JSError Bool :=
  v.toNumber.map fun n => n.lt (.fin c)

/-- The expression `v > c` for a numeric literal `c`. -/
def JVal.gtLit (v : JVal) (c : ℕ) : Except JSError Bool :=
  v.toNumber.map fun n => JNum.lt (.fin c) n

/-- The expression `v + suffix` for a string literal `suffix`. -/
def JVal.concat (v : JVal) (suffix : String) : Except JSError String :=
  v.toStr.map fun s => s ++ suffix

/-- The method call `v.toFixed(f)`: only a number has the method; on any other
value the call throws a TypeError. -/
def JVal.callToFixed (v : JVal) (f : Nat) : Except JSError String :=
  match v with
  | .num n => .ok (toFixed n f)
  | _ => .error .typeError

/-! ## Program state

The page is modelled by the elements the script addresses.  An element with
an id is an entry of `elements`; the three structured ones (`system-status`,
`forecast-container`, `wifi-ssid-select`) are fields of their own.  Elements
are taken to be independent of each other: writing one does not remove
another from the document. -/

/-- Severity of a console entry (`console.log`, `console.warn`,
`console.error`). -/
inductive LogLevel where
  | log
  | warn
  | error
deriving DecidableEq, Repr

/-- The second argument of a console call. -/
inductive LogArg where
  | none
  | value (v : JVal)
  | exception (e : JSError)

/-- One console call. -/
structure LogEntry where
  level : LogLevel
  message : String
  arg : LogArg

/-- An element found by `document.getElementById`: the properties the script
reads or writes.  `styleWidth` is the last text assigned to `style.width`;
`value` is `none` for an element without a `value` property. -/
structure Element where
  textContent : String
  className : String
  styleWidth : String
  value : Option String
  checked : Bool
deriving DecidableEq, Repr

/-- The element `#system-status`: the class list of its `.status-dot`
descendant and the text of its first `span` that is not the dot, each `none`
when the page has no such descendant. -/
structure Indicator where
  dot : Option (List String)
  text : Option String
deriving DecidableEq, Repr

/-- A child appended to `#forecast-container`. -/
structure ForecastDay where
  className : String
  innerHTML : String
deriving DecidableEq, Repr

/-- An `option` child of `#wifi-ssid-select`. -/
structure SelectOption where
  value : String
  textContent : String
deriving DecidableEq, Repr

/-- The button that received the click (`event.target`). -/
structure Button where
  disabled : Bool
  textContent : String
deriving DecidableEq, Repr

/-- An alert box appended to `document.body` by `showAlert`. -/
structure Alert where
  className : String
  textContent : String
deriving DecidableEq, Repr

/-- The `readyState` of a WebSocket. -/
inductive ReadyState where
  | CONNECTING
  | OPEN
  | CLOSING
  | CLOSED
deriving DecidableEq, Repr

/-- The message `{ type, data }`; a socket's `sent` list holds the envelopes
whose JSON text was passed to `send`. -/
structure Envelope where
  type : String
  data : JVal

/-- A WebSocket created by `new WebSocket(url)`. -/
structure Socket where
  url : String
  readyState : ReadyState
  sent : List Envelope

/-- The function a timer runs. -/
inductive Callback where
  | initWebSocket
  | reload
  | removeAlert (index : Nat)
deriving DecidableEq, Repr

/-- A pending `setTimeout(callback, delay)`. -/
structure Timer where
  delay : Nat
  callback : Callback
deriving DecidableEq, Repr

/-- A field of a JSON request body.  `parseFloat` holds the text handed to
`parseFloat`, whose value the body carries. -/
inductive BodyField where
  | text (s : String)
  | flag (b : Bool)
  | parseFloat (arg : String)
deriving DecidableEq, Repr

/-- A call of `fetch`: the URL, the method and the fields of the JSON body. -/
structure Request where
  url : String
  method : String
  body : Option (List (String × BodyField))
deriving DecidableEq, Repr

/-- How a `fetch` ends: the promise rejects (network error), or a response
arrives with a status and a body that `response.json()` parses (`some`) or
rejects (`none`). -/
inductive HttpOutcome where
  | networkError
  | response (status : Nat) (body : Option JVal)

/-- The global `sensorData`. -/
structure SensorData where
  indoor_main : JVal
  indoor_secondary : JVal
  outdoor : JVal
  weather_api : JVal
  ml_prediction : JVal

/-- What the clock reads during one event: `Date.now()` and
`new Date().toLocaleTimeString()`. -/
structure Clock where
  now : ℤ
  timeString : String

/-- The state of the page: the script's globals (`ws`, `wsConnected`,
`sensorData`, `systemStatus`), the sockets it created, the pending timers, the
console, the document and the requests sent. -/
structure State where
  hostname : String
  ws : Option Nat
  wsConnected : Bool
  sensorData : SensorData
  systemStatus : JVal
  sockets : List Socket
  timers : List Timer
  console : List LogEntry
  elements : String → Option Element
  indicator : Option Indicator
  forecast : Option (List ForecastDay)
  ssidSelect : Option (List SelectOption)
  scanButton : Button
  alerts : List Alert
  requests : List Request

/-- The constant `CONFIG.WS_URL`, for the host name of the page. -/
def CONFIG.WS_URL (hostname : String) : String := "ws://" ++ hostname ++ ":81"

/-- The base path of the HTTP interface. -/
def CONFIG.API_BASE : String := "/api"

/-- The globals as the script initialises them, on a given document. -/
def State.initial (hostname : String) (elements : String → Option Element)
    (indicator : Option Indicator) (forecast : Option (List ForecastDay))
    (ssidSelect : Option (List SelectOption)) (scanButton : Button) : State where
  hostname := hostname
  ws := none
  wsConnected := false
  sensorData := ⟨.obj [], .obj [], .obj [], .obj [], .obj []⟩
  systemStatus := .obj [("uptime", .num (.fin 0)), ("heap", .num (.fin 0)),
    ("wifi_signal", .num (.fin 0)), ("temperature", .num (.fin 0))]
  sockets := []
  timers := []
  console := []
  elements := elements
  indicator := indicator
  forecast := forecast
  ssidSelect := ssidSelect
  scanButton := scanButton
  alerts := []
  requests := []

/-! ## Effects

A function of the script is a state transformer that ends normally or with an
exception; the state reached when the exception is thrown is kept, as every
assignment made before the throw stays made. -/

/-- A computation over the page state that may throw. -/
def Eff (α : Type) : Type := State → Except JSError α × State

/-- Normal completion with a value. -/
def Eff.pure {α : Type} (a : α) : Eff α := fun s => (.ok a, s)

/-- Sequencing: an exception of the first part skips the second. -/
def Eff.bind {α β : Type} (m : Eff α) (k : α → Eff β) : Eff β := fun s =>
  match m s with
  | (.ok a, s') => k a s'
  | (.error e, s') => (.error e, s')

instance : Monad Eff where
  pure := Eff.pure
  bind := Eff.bind

/-- The statement `throw e`. -/
def Eff.throw {α : Type} (e : JSError) : Eff α := fun s => (.error e, s)

/-- A runtime operation that may throw and touches no state. -/
def Eff.lift {α : Type} (r : Except JSError α) : Eff α := fun s => (r, s)

/-- An assignment to the state. -/
def Eff.modify (f : State → State) : Eff Unit := fun s => (.ok (), f s)

/-- A read of the state. -/
def Eff.read : Eff State := fun s => (.ok s, s)

/-- The statement `try { body } catch (error) { handler(error) }`. -/
def Eff.tryCatch {α : Type} (body : Eff α) (handler : JSError → Eff α) : Eff α := fun s =>
  match body s with
  | (.ok a, s') => (.ok a, s')
  | (.error e, s') => handler e s'

/-- A console call. -/
def console (level : LogLevel) (message : String) (arg : LogArg) : Eff Unit :=
  Eff.modify fun s => { s with console := s.console ++ [⟨level, message, arg⟩] }

/-! ## UI update functions -/

/-- The function `updateElement(id, content, className)` for a string
`content`: a missing element is skipped; the class is replaced only by a
non-empty `className`. -/
def updateElement (id : String) (content : String) (className : Option String) : Eff Unit :=
  Eff.modify fun s =>
    match s.elements id with
    | none => s
    | some el =>
      let written : Element :=
        match className with
        | some c => if c = "" then { el with textContent := content }
            else { el with textContent := content, className := c }
        | none => { el with textContent := content }
      { s with elements := fun j => if j = id then some written else s.elements j }

/-- The function `updateElement(id, content)` for a `content` that is not
known to be a string: the `textContent` setter turns `null` and `undefined`
into the empty text and any other value into its `ToString`. -/
def updateElementValue (id : String) (content : JVal) : Eff Unit := do
  let s ← Eff.read
  match s.elements id with
  | none => pure ()
  | some _ =>
    let text ← Eff.lift (match content with
      | .undefined => .ok ""
      | .null => .ok ""
      | v => v.toStr)
    updateElement id text none

/-- The method `classList.remove(token)`. -/
def classListRemove (classes : List String) (token : String) : List String :=
  classes.filter fun c => c ≠ token

/-- The method `classList.add(token)`. -/
def classListAdd (classes : List String) (token : String) : List String :=
  if token ∈ classes then classes else classes ++ [token]

/-- The function `updateSystemStatus(status)`.  Without the indicator it
returns at once.  For `online` and `offline` it rewrites the dot's classes and
then the text; a missing dot or text span is a `null` that is dereferenced.
Any other status changes nothing. -/
def updateSystemStatus (status : String) : Eff Unit := fun s =>
  match s.indicator with
  | none => (.ok (), s)
  | some indicator =>
    if status = "online" then
      match indicator.dot with
      | none => (.error .typeError, s)
      | some classes =>
        let dot := classListAdd (classListRemove classes "offline") "online"
        match indicator.text with
        | none => (.error .typeError, { s with indicator := some ⟨some dot, none⟩ })
        | some _ => (.ok (), { s with indicator := some ⟨some dot, some "Online"⟩ })
    else if status = "offline" then
      match indicator.dot with
      | none => (.error .typeError, s)
      | some classes =>
        let dot := classListAdd (classListRemove classes "online") "offline"
        match indicator.text with
        | none => (.error .typeError, { s with indicator := some ⟨some dot, none⟩ })
        | some _ => (.ok (), { s with indicator := some ⟨some dot, some "Offline"⟩ })
    else (.ok (), s)

/-- The function `updateTimestamp()`. -/
def updateTimestamp (clock : Clock) : Eff Unit := do
  updateElement "last-update" ("Last update: " ++ clock.timeString) none
  updateElement "footer-time" clock.timeString none

/-! ## Formatting functions -/

/-- The function `formatTemperature(temp)`. -/
def formatTemperature (temp : JVal) : Except JSError String :=
  match temp with
  | .undefined => .ok "-- °C"
  | .null => .ok "-- °C"
  | v => (v.callToFixed 1).map fun t => t ++ " °C"

/-- The function `formatPercentage(percent)`. -/
def formatPercentage (percent : JVal) : Except JSError String :=
  match percent with
  | .undefined => .ok "-- %"
  | .null => .ok "-- %"
  | v => (v.callToFixed 0).map fun t => t ++ " %"

/-- The function `formatPressure(pressure)`. -/
def formatPressure (pressure : JVal) : Except JSError String :=
  match pressure with
  | .undefined => .ok "-- hPa"
  | .null => .ok "-- hPa"
  | v => (v.callToFixed 0).map fun t => t ++ " hPa"

/-- The label chosen by the `if`/`else if` chain of `formatIAQ`. -/
def iaqQuality (iaq : JVal) : Except JSError String := do
  if ← iaq.ltLit 50 then return "Good"
  if ← iaq.ltLit 100 then return "Acceptable"
  if ← iaq.ltLit 150 then return "Little Bad"
  if ← iaq.ltLit 200 then return "Bad"
  return "Very Bad"

/-- The function `formatIAQ(iaq)`. -/
def formatIAQ (iaq : JVal) : Except JSError String :=
  match iaq with
  | .undefined => .ok "-- (Unknown)"
  | .null => .ok "-- (Unknown)"
  | v => do
    let quality ← iaqQuality v
    let text ← v.toStr
    return text ++ " (" ++ quality ++ ")"

/-- The method `padStart(2, "0")`. -/
def padStart2 (s : String) : String :=
  if s.length < 2 then zeros (2 - s.length) ++ s else s

/-- The function `formatUptime(milliseconds)`. -/
def formatUptime (milliseconds : JVal) : Except JSError String :=
  if !milliseconds.truthy then .ok "00:00:00"
  else do
    let ms ← milliseconds.toNumber
    let totalSeconds := (ms.divLit 1000).floor
    let hours := (totalSeconds.divLit 3600).floor
    let minutes := ((totalSeconds.modLit 3600).divLit 60).floor
    let seconds := totalSeconds.modLit 60
    return padStart2 (numberToString hours) ++ ":" ++ padStart2 (numberToString minutes) ++ ":" ++
      padStart2 (numberToString seconds)

/-- The text a native function prints as (implementation-defined; this is the
form V8 uses). -/
def nativeFunctionText (name : String) : String :=
  "function " ++ name ++ "() { [native code] }"

/-- The function `getWeatherIcon(condition)`: the icon of a known condition,
else the thermometer.  The lookup `iconMap[condition]` also finds what
`iconMap` inherits from `Object.prototype`, which is truthy and is returned
(here already as the text it has in the template of the forecast card). -/
def getWeatherIcon (condition : JVal) : Except JSError String :=
  condition.toStr.map fun key =>
    if key = "Sunny" then "☀️"
    else if key = "Partly Cloudy" then "⛅"
    else if key = "Cloudy" then "☁️"
    else if key = "Rainy" then "🌧️"
    else if key = "Stormy" then "⛈️"
    else if key = "Snow" then "❄️"
    else if key = "Foggy" then "🌫️"
    else if key = "__proto__" then "[object Object]"
    else if key ∈ ["constructor", "hasOwnProperty", "isPrototypeOf", "propertyIsEnumerable",
        "toLocaleString", "toString", "valueOf", "__defineGetter__", "__defineSetter__",
        "__lookupGetter__", "__lookupSetter__"] then
      nativeFunctionText (if key = "constructor" then "Object" else key)
    else "🌡️"

/-! ## Data handlers -/

/-- The call `updateElement(id, text)` whose argument `text` is computed first
and may throw. -/
def render (id : String) (text : Except JSError String) : Eff Unit := do
  let t ← Eff.lift text
  updateElement id t none

/-- The nested read `data.section.field`. -/
def JVal.getPath (data : JVal) (section_ field : String) : Except JSError JVal := do
  let inner ← data.getProp section_
  inner.getProp field

/-- The first block of `handleSensorUpdate`: indoor main room (BME680). -/
def updateIndoorMain (data : JVal) : Eff Unit := do
  let indoor_main ← Eff.lift (data.getProp "indoor_main")
  if indoor_main.truthy then
    Eff.modify fun s => { s with sensorData := { s.sensorData with indoor_main := indoor_main } }
    render "temp-room1" (do formatTemperature (← data.getPath "indoor_main" "temperature"))
    render "humidity-room1" (do formatPercentage (← data.getPath "indoor_main" "humidity"))
    render "pressure-room1" (do formatPressure (← data.getPath "indoor_main" "pressure"))
    render "iaq-room1" (do formatIAQ (← data.getPath "indoor_main" "iaq"))

/-- The second block of `handleSensorUpdate`: indoor secondary room (DHT22
from node). -/
def updateIndoorSecondary (clock : Clock) (data : JVal) : Eff Unit := do
  let indoor_secondary ← Eff.lift (data.getProp "indoor_secondary")
  if indoor_secondary.truthy then
    Eff.modify fun s =>
      { s with sensorData := { s.sensorData with indoor_secondary := indoor_secondary } }
    render "temp-room2" (do formatTemperature (← data.getPath "indoor_secondary" "temperature"))
    render "humidity-room2" (do formatPercentage (← data.getPath "indoor_secondary" "humidity"))
    let rssi ← Eff.lift (data.getPath "indoor_secondary" "rssi")
    let status := if rssi.truthy then "Online" else "Offline"
    updateElement "status-room2" status
      (some (if status = "Online" then "status-badge" else "status-badge offline"))
    let timestamp ← Eff.lift (data.getPath "indoor_secondary" "timestamp")
    let elapsed ← Eff.lift timestamp.toNumber
    let minutesAgo := ((JNum.rsub clock.now elapsed).divLit 60000).floor
    updateElement "update-room2" (numberToString minutesAgo ++ " min ago") none

/-- The pressure trend shown for `data.outdoor.pressure_trend`. -/
def pressureTrend (pressure_trend : JVal) : Except JSError String := do
  if ← pressure_trend.gtLit 0 then return "↑ Rising"
  if ← pressure_trend.ltLit 0 then return "↓ Falling"
  return "→ Stable"

/-- The third block of `handleSensorUpdate`: outdoor sensors. -/
def updateOutdoor (data : JVal) : Eff Unit := do
  let outdoor ← Eff.lift (data.getProp "outdoor")
  if outdoor.truthy then
    Eff.modify fun s => { s with sensorData := { s.sensorData with outdoor := outdoor } }
    render "temp-outdoor" (do formatTemperature (← data.getPath "outdoor" "temperature"))
    render "humidity-outdoor" (do formatPercentage (← data.getPath "outdoor" "humidity"))
    render "pressure-outdoor" (do formatPressure (← data.getPath "outdoor" "pressure"))
    render "light-outdoor" (do (← data.getPath "outdoor" "light").concat " lux")
    render "pressure-trend" (do pressureTrend (← data.getPath "outdoor" "pressure_trend"))

/-- The fourth block of `handleSensorUpdate`: heart rate. -/
def updateHeartRate (data : JVal) : Eff Unit := do
  let heart_rate ← Eff.lift (data.getProp "heart_rate")
  match heart_rate with
  | .undefined => pure ()
  | _ =>
    if ← Eff.lift (heart_rate.gtLit 0) then
      render "heart-rate" (heart_rate.concat " BPM")
      render "spo2" (do (← data.getProp "spo2").concat " %")
      updateElement "hr-status" "Measuring" none
    else
      updateElement "hr-status" "Waiting for data" none

/-- The function `handleSensorUpdate(data)`: its four blocks in order, then
the timestamp. -/
def handleSensorUpdate (clock : Clock) (data : JVal) : Eff Unit := do
  updateIndoorMain data
  updateIndoorSecondary clock data
  updateOutdoor data
  updateHeartRate data
  updateTimestamp clock

/-- The function `handleSystemStatus(data)`. -/
def handleSystemStatus (data : JVal) : Eff Unit := do
  Eff.modify fun s => { s with systemStatus := data }
  render "uptime" (do formatUptime (← data.getProp "uptime"))
  render "heap" (do
    let heap ← (← data.getProp "heap").toNumber
    return toFixed (heap.divLit 1024) 1 ++ " KB")
  render "wifi-signal" (do (← data.getProp "wifi_signal").concat " dBm")
  render "cpu-temp" (do formatTemperature (← data.getProp "temperature"))

/-- The labels `days[index]` of the forecast cards, as the template prints
them. -/
def dayLabel (index : Nat) : String :=
  (["Today", "Tomorrow", "+2", "+3", "+4"].get? index).getD "undefined"

/-- The template literal assigned to `dayDiv.innerHTML`. -/
def forecastCard (label icon temp condition : String) : String :=
  "\n            <div class=\"forecast-day-label\">" ++ label ++ "</div>" ++
  "\n            <div class=\"forecast-icon\">" ++ icon ++ "</div>" ++
  "\n            <div class=\"forecast-temp\">" ++ temp ++ "°C</div>" ++
  "\n            <div class=\"forecast-condition\">" ++ condition ++ "</div>" ++
  "\n        "

/-- The body of the `forEach` callback of `handleForecastUpdate`, for the
days from position `index` on. -/
def appendForecastDays : List JVal → Nat → Eff Unit
  | [], _ => pure ()
  | day :: rest, index => do
    let icon ← Eff.lift (do getWeatherIcon (← day.getProp "condition"))
    let temp ← Eff.lift (do (← day.getProp "temp").toStr)
    let condition ← Eff.lift (do (← day.getProp "condition").toStr)
    Eff.modify fun s => { s with forecast := s.forecast.map fun children =>
      children ++ [⟨"forecast-day", forecastCard (dayLabel index) icon temp condition⟩] }
    appendForecastDays rest (index + 1)

/-- The function `handleForecastUpdate(data)`. -/
def handleForecastUpdate (data : JVal) : Eff Unit := do
  if !data.truthy then return
  let forecast ← Eff.lift (data.getProp "forecast")
  if !forecast.truthy then return
  let s ← Eff.read
  match s.forecast with
  | none => Eff.throw .typeError
  | some _ =>
    Eff.modify fun s => { s with forecast := some [] }
    match forecast with
    | .arr days => appendForecastDays days 0
    | _ => Eff.throw .typeError

/-- The text shown for `data.temperature_trend`. -/
def temperatureTrend (temperature_trend : JVal) : Except JSError String := do
  if ← temperature_trend.gtLit 0 then return "↑ RISING"
  if ← temperature_trend.ltLit 0 then return "↓ FALLING"
  return "→ STABLE"

/-- The function `handleMLPrediction(data)`. -/
def handleMLPrediction (data : JVal) : Eff Unit := do
  if !data.truthy then return
  -- Rain probability
  render "rain-prob" (do
    let p ← (← data.getProp "rain_probability").toNumber
    return numberToString p.round ++ "%")
  let s ← Eff.read
  match s.elements "rain-prob-bar" with
  | none => Eff.throw .typeError
  | some bar =>
    let width ← Eff.lift (do (← data.getProp "rain_probability").concat "%")
    Eff.modify fun s => { s with elements := fun j =>
      if j = "rain-prob-bar" then some { bar with styleWidth := width } else s.elements j }
  -- Temperature trend
  let temperature_trend ← Eff.lift (data.getProp "temperature_trend")
  let trendText ← Eff.lift (temperatureTrend temperature_trend)
  updateElement "temp-trend" trendText none
  -- General condition
  updateElementValue "general-condition" (← Eff.lift (data.getProp "general_condition"))

/-! ## WebSocket management -/

/-- The function `handleWebSocketMessage(message)`. -/
def handleWebSocketMessage (clock : Clock) (message : JVal) : Eff Unit := do
  let type ← Eff.lift (message.getProp "type")
  match type with
  | .str "sensor_update" => do
    let data ← Eff.lift (message.getProp "data")
    handleSensorUpdate clock data
  | .str "system_status" => do
    let data ← Eff.lift (message.getProp "data")
    handleSystemStatus data
  | .str "forecast_update" => do
    let data ← Eff.lift (message.getProp "data")
    handleForecastUpdate data
  | .str "ml_prediction" => do
    let data ← Eff.lift (message.getProp "data")
    handleMLPrediction data
  | _ => console .log "Unknown message type:" (.value type)

/-- The socket the global `ws` refers to (`none` while `ws` is `null`). -/
def State.currentSocket (s : State) : Option Socket :=
  s.ws.bind fun i => s.sockets[i]?

/-- The default parameter `data = {}`: an argument that is `undefined` (or
left out) is replaced by the empty object. -/
def defaultData (data : JVal) : JVal :=
  match data with
  | .undefined => .obj []
  | d => d

/-- The function `sendWebSocketMessage(type, data = {})`. -/
def sendWebSocketMessage (type : String) (data : JVal) : Eff Unit := fun s =>
  let data := defaultData data
  if s.wsConnected then
    match s.ws, s.currentSocket with
    | some i, some socket =>
      if socket.readyState = .OPEN then
        (.ok (), { s with sockets := s.sockets.set i { socket with sent := socket.sent ++ [⟨type, data⟩] } })
      else console .warn "WebSocket not connected" .none s
    | _, _ => (.error .typeError, s)
  else console .warn "WebSocket not connected" .none s

/-- The function `requestInitialData()`. -/
def requestInitialData : Eff Unit := do
  sendWebSocketMessage "request_sensor_data" .undefined
  sendWebSocketMessage "request_system_status" .undefined
  sendWebSocketMessage "request_forecast" .undefined
  sendWebSocketMessage "request_ml_prediction" .undefined

/-- The function `initWebSocket()`: a new socket, still connecting, becomes
`ws`; its four handlers are `onopen`, `onmessage`, `onerror` and `onclose`
below.  The constructor is taken to succeed, as it does for every host name
that makes `ws://host:81` a URL. -/
def initWebSocket : Eff Unit := do
  let s ← Eff.read
  console .log ("Connecting to WebSocket: " ++ CONFIG.WS_URL s.hostname) .none
  Eff.modify fun s => { s with
    ws := some s.sockets.length
    sockets := s.sockets ++ [⟨CONFIG.WS_URL s.hostname, .CONNECTING, []⟩] }

/-- The handler `ws.onopen`. -/
def onopen : Eff Unit := do
  console .log "WebSocket connected" .none
  Eff.modify fun s => { s with wsConnected := true }
  updateSystemStatus "online"
  requestInitialData

/-- The handler `ws.onmessage`; `parsed` is the result of
`JSON.parse(event.data)`, `none` when it throws a SyntaxError. -/
def onmessage (clock : Clock) (parsed : Option JVal) : Eff Unit :=
  Eff.tryCatch
    (match parsed with
      | none => Eff.throw .syntaxError
      | some message => handleWebSocketMessage clock message)
    (fun error => console .error "Error parsing WebSocket message:" (.exception error))

/-- The handler `ws.onerror`. -/
def onerror : Eff Unit := do
  console .error "WebSocket error:" .none
  updateSystemStatus "error"

/-- The handler `ws.onclose`. -/
def onclose : Eff Unit := do
  console .log "WebSocket disconnected" .none
  Eff.modify fun s => { s with wsConnected := false }
  updateSystemStatus "offline"
  -- Reconnect after 3 seconds
  Eff.modify fun s => { s with timers := s.timers ++ [⟨3000, .initWebSocket⟩] }

/-- The browser opening socket `i`: its `readyState` becomes `OPEN` and its
`open` event runs `onopen`. -/
def socketOpens (i : Nat) : Eff Unit := do
  Eff.modify fun s =>
    match s.sockets[i]? with
    | some socket => { s with sockets := s.sockets.set i { socket with readyState := .OPEN } }
    | none => s
  onopen

/-! ## API functions and configuration page -/

/-- The function `showAlert(message, type)`: the alert box is appended to the
body and its removal is scheduled after five seconds. -/
def showAlert (message type : String) : Eff Unit :=
  Eff.modify fun s => { s with
    alerts := s.alerts ++ [⟨"alert alert-" ++ type, message⟩]
    timers := s.timers ++ [⟨5000, .removeAlert s.alerts.length⟩] }

/-- The function `apiCall(endpoint, method, data)` together with the outcome
of its `fetch`: the request is issued once; a rejected fetch, a status outside
200 to 299 or an unreadable body is caught, logged and turned into `null`. -/
def apiCall (endpoint method : String) (data : Option (List (String × BodyField)))
    (outcome : HttpOutcome) : Eff JVal := do
  Eff.modify fun s => { s with requests := s.requests ++ [⟨CONFIG.API_BASE ++ endpoint, method, data⟩] }
  Eff.tryCatch
    (match outcome with
      | .networkError => Eff.throw .networkError
      | .response status body =>
        if 200 ≤ status ∧ status ≤ 299 then
          match body with
          | some json => pure json
          | none => Eff.throw .syntaxError
        else Eff.throw (.httpError status))
    (fun error => do
      console .error "API call failed:" (.exception error)
      return .null)

/-- The text `option.value = network` stores: the `ToString` of the value. -/
def optionValue (network : JVal) : Except JSError String :=
  network.toStr

/-- The text `option.textContent = network` stores: empty for `null` and
`undefined`, else the `ToString` of the value. -/
def optionText (network : JVal) : Except JSError String :=
  match network with
  | .undefined => .ok ""
  | .null => .ok ""
  | v => v.toStr

/-- The body of the `forEach` callback of `scanWiFiNetworks`, for each
network in turn. -/
def appendNetworkOptions : List JVal → Eff Unit
  | [] => pure ()
  | network :: rest => do
    let value ← Eff.lift (optionValue network)
    let text ← Eff.lift (optionText network)
    Eff.modify fun s => { s with ssidSelect := s.ssidSelect.map fun options =>
      options ++ [⟨value, text⟩] }
    appendNetworkOptions rest

/-- The function `scanWiFiNetworks()` and the callback of its promise. -/
def scanWiFiNetworks (outcome : HttpOutcome) : Eff Unit := do
  Eff.modify fun s => { s with scanButton := ⟨true, "Scanning..."⟩ }
  let result ← apiCall "/wifi/scan" "GET" none outcome
  if result.truthy then
    let networks ← Eff.lift (result.getProp "networks")
    if networks.truthy then
      let s ← Eff.read
      match s.ssidSelect with
      | none => pure ()
      | some _ =>
        Eff.modify fun s => { s with ssidSelect := some [⟨"", "-- Select network --"⟩] }
        match networks with
        | .arr items =>
          appendNetworkOptions items
          showAlert ("Networks found: " ++ digits items.length) "success"
        | _ => Eff.throw .typeError
  Eff.modify fun s => { s with scanButton := ⟨false, "Scan Networks"⟩ }

/-- The expression `result && result.success`. -/
def resultSuccess (result : JVal) : Except JSError JVal :=
  if result.truthy then result.getProp "success" else .ok result

/-- The expression `document.getElementById(id)?.value || ""`. -/
def State.inputValue (s : State) (id : String) : String :=
  ((s.elements id).bind fun el => el.value).getD ""

/-- The function `saveWiFiConfig()` and the callback of its promise. -/
def saveWiFiConfig (outcome : HttpOutcome) : Eff Unit := do
  let s ← Eff.read
  let config := [
    ("ssid", BodyField.text (s.inputValue "wifi-ssid")),
    ("password", .text (s.inputValue "wifi-password")),
    ("static_ip", .flag (((s.elements "wifi-static-ip").map fun el => el.checked).getD false)),
    ("ip", .text (s.inputValue "wifi-ip")),
    ("gateway", .text (s.inputValue "wifi-gateway")),
    ("subnet", .text (s.inputValue "wifi-subnet")),
    ("dns", .text (s.inputValue "wifi-dns"))]
  let result ← apiCall "/config/wifi" "POST" (some config) outcome
  if (← Eff.lift (resultSuccess result)).truthy then
    showAlert "WiFi configuration saved. Restarting..." "success"
    Eff.modify fun s => { s with timers := s.timers ++ [⟨2000, .reload⟩] }
  else
    showAlert "Failed to save configuration" "error"

/-- The argument of `parseFloat(document.getElementById(id)?.value || 0)`. -/
def State.floatArgument (s : State) (id : String) : String :=
  if s.inputValue id = "" then "0" else s.inputValue id

/-- The function `saveAPIConfig()` and the callback of its promise. -/
def saveAPIConfig (outcome : HttpOutcome) : Eff Unit := do
  let s ← Eff.read
  let config := [
    ("openweathermap_key", BodyField.text (s.inputValue "api-owm-key")),
    ("tomorrow_key", .text (s.inputValue "api-tomorrow-key")),
    ("latitude", .parseFloat (s.floatArgument "api-latitude")),
    ("longitude", .parseFloat (s.floatArgument "api-longitude"))]
  let result ← apiCall "/config/api" "POST" (some config) outcome
  if (← Eff.lift (resultSuccess result)).truthy then
    showAlert "API configuration saved" "success"
  else
    showAlert "Failed to save API configuration" "error"

/-- The function `testAPIConnection()` and the callback of its promise. -/
def testAPIConnection (outcome : HttpOutcome) : Eff Unit := do
  let result ← apiCall "/api/test" "GET" none outcome
  if (← Eff.lift (resultSuccess result)).truthy then
    showAlert "API connection successful!" "success"
  else
    showAlert "API connection failed" "error"

/-- The function `restartSystem()`; `confirmed` is the answer to `confirm`. -/
def restartSystem (confirmed : Bool) (outcome : HttpOutcome) : Eff Unit := do
  if confirmed then
    let _ ← apiCall "/system/restart" "POST" none outcome
    showAlert "System restarting..." "success"
    Eff.modify fun s => { s with timers := s.timers ++ [⟨3000, .reload⟩] }

/-- The function `factoryReset()`; `first` and `second` are the answers to its
two `confirm` dialogs. -/
def factoryReset (first second : Bool) (outcome : HttpOutcome) : Eff Unit := do
  if first then
    if second then
      let _ ← apiCall "/system/reset" "POST" none outcome
      showAlert "Factory reset in progress..." "success"
      Eff.modify fun s => { s with timers := s.timers ++ [⟨3000, .reload⟩] }

/-! ## Example pages -/

/-- A dashboard page with every element the script addresses: text elements
start empty, the indicator has its dot and its text span. -/
def State.dashboard : State :=
  State.initial "station.local"
    (fun id =>
      if id ∈ ["temp-room1", "humidity-room1", "pressure-room1", "iaq-room1", "temp-room2",
          "humidity-room2", "status-room2", "update-room2", "temp-outdoor", "humidity-outdoor",
          "pressure-outdoor", "light-outdoor", "pressure-trend", "heart-rate", "spo2",
          "hr-status", "last-update", "footer-time", "uptime", "heap", "wifi-signal",
          "cpu-temp", "rain-prob", "rain-prob-bar", "temp-trend", "general-condition"]
      then some ⟨"", "", "", none, false⟩ else none)
    (some ⟨some ["status-dot"], some "Connecting..."⟩) (some []) (some [])
    ⟨false, "Scan Networks"⟩

/-- The dashboard after `initWebSocket()` and the `open` event of its socket. -/
def State.connected : State :=
  ((do initWebSocket; socketOpens 0 : Eff Unit) State.dashboard).2

/-- A clock reading. -/
def Clock.noon : Clock := ⟨1700000000000, "12:00:00"⟩

/-! ## Notions of the specification -/

/-- The channel is not open: `wsConnected` is false, or the `readyState` of
the socket `ws` is not `OPEN`. -/
def State.channelClosed (s : State) : Prop :=
  s.wsConnected = false ∨ ∃ socket, s.currentSocket = some socket ∧ socket.readyState ≠ .OPEN

/-- The page has a usable status indicator: none at all, or one with both
its dot and its text span. -/
def State.indicatorUsable (s : State) : Prop :=
  s.indicator = none ∨ ∃ classes text, s.indicator = some ⟨some classes, some text⟩

/-- Two states that differ at most in the console. -/
def State.sameButConsole (s t : State) : Prop :=
  t = { s with console := t.console }

/-- A computation that neither reads nor depends on the console: from two
states that differ at most in the console it gives the same result and two
states that differ at most in the console. -/
def Eff.ConsoleBlind {α : Type} (m : Eff α) : Prop :=
  ∀ s t, s.sameButConsole t → (m s).1 = (m t).1 ∧ (m s).2.sameButConsole (m t).2

/-- The part of the state that belongs to the connection and to the
configuration page: the script's `ws` and `wsConnected`, the sockets with
what they have sent, the pending timers, the HTTP requests and the alerts. -/
def State.connection (s : State) :
    Option Nat × Bool × List Socket × List Timer × List Request × List Alert :=
  (s.ws, s.wsConnected, s.sockets, s.timers, s.requests, s.alerts)

/-- A computation that leaves the observation `f` of the state as it was,
whether it ends normally or throws. -/
def Eff.Preserves {α β : Type} (f : State → β) (m : Eff α) : Prop :=
  ∀ s, f (m s).2 = f s

/-- The ids of the elements of the outdoor card. -/
def outdoorIds : List String :=
  ["temp-outdoor", "humidity-outdoor", "pressure-outdoor", "light-outdoor", "pressure-trend"]

/-- The ids of the two elements that show the time of the last update. -/
def timestampIds : List String := ["last-update", "footer-time"]

/-- The ids of the elements of the two indoor rooms. -/
def roomIds : List String :=
  ["temp-room1", "humidity-room1", "pressure-room1", "iaq-room1", "temp-room2",
    "humidity-room2", "status-room2", "update-room2"]

/-- The state with its outdoor part blanked: `sensorData.outdoor`, the outdoor
elements and the timestamp elements.  Two states with the same image differ
at most in those. -/
def State.outsideOutdoor (s : State) : State :=
  { s with
    sensorData := { s.sensorData with outdoor := .undefined }
    elements := fun id => if id ∈ outdoorIds ++ timestampIds then none else s.elements id }

/-- The call failed: the fetch was rejected (network error), the status is
outside 200 to 299, or the body of an OK response could not be read. -/
def HttpOutcome.failed : HttpOutcome → Prop
  | .networkError => True
  | .response status body => ¬(200 ≤ status ∧ status ≤ 299) ∨ body = none

/-- The exception `apiCall` catches for a failed call. -/
def HttpOutcome.error : HttpOutcome → JSError
  | .networkError => .networkError
  | .response status _ => if 200 ≤ status ∧ status ≤ 299 then .syntaxError else .httpError status

/-- The tenths nearest to `|q|` (of two equally near the larger): the value of
`q` rounded to one decimal place is this many tenths, with the sign of `q`. -/
def nearestTenths (q : ℚ) : ℕ := ⌊|q| * 10 + 1 / 2⌋.toNat

/-- The decimal text of `q` rounded to exactly one decimal place: a minus sign
for a negative `q`, the integer part, a point and one digit. -/
def oneDecimal (q : ℚ) : String :=
  (if q < 0 then "-" else "") ++ digits (nearestTenths q / 10) ++ "." ++
    digits (nearestTenths q % 10)

/-- The position of a label on the scale of air quality, from best to worst. -/
def qualityRank (label : String) : ℕ :=
  if label = "Good" then 0
  else if label = "Acceptable" then 1
  else if label = "Little Bad" then 2
  else if label = "Bad" then 3
  else 4

/-- A natural number in decimal, zero-padded to at least two digits. -/
def twoDigits (n : ℕ) : String :=
  if n < 10 then "0" ++ digits n else digits n

/-- The text `H:MM:SS` of an uptime of `ms` milliseconds: with `t` the whole
seconds, `H` is `t / 3600`, `MM` is `t % 3600 / 60` and `SS` is `t % 60`. -/
def uptimeText (ms : ℕ) : String :=
  twoDigits (ms / 1000 / 3600) ++ ":" ++ twoDigits (ms / 1000 % 3600 / 60) ++ ":" ++
    twoDigits (ms / 1000 % 60)

/-! # Theorems -/

/-! ## Running effects -/

@[simp] theorem Eff.run_pure {α : Type} (a : α) (s : State) :
    (Pure.pure a : Eff α) s = (.ok a, s) := rfl

@[simp] theorem Eff.run_bind {α β : Type} (m : Eff α) (k : α → Eff β) (s : State) :
    (m >>= k) s = match m s with
      | (.ok a, s') => k a s'
      | (.error e, s') => (.error e, s') := rfl

@[simp] theorem Eff.run_modify (f : State → State) (s : State) :
    Eff.modify f s = (.ok (), f s) := rfl

@[simp] theorem Eff.run_lift {α : Type} (r : Except JSError α) (s : State) :
    Eff.lift r s = (r, s) := rfl

@[simp] theorem Eff.run_read (s : State) : Eff.read s = (.ok s, s) := rfl

@[simp] theorem Eff.run_throw {α : Type} (e : JSError) (s : State) :
    (Eff.throw e : Eff α) s = (.error e, s) := rfl

@[simp] theorem run_console (level : LogLevel) (message : String) (arg : LogArg) (s : State) :
    console level message arg s =
      (.ok (), { s with console := s.console ++ [⟨level, message, arg⟩] }) := rfl

/-! ## Dispatch of incoming messages -/

/-- C1: a message whose `type` is none of `sensor_update`, `system_status`,
`forecast_update`, `ml_prediction` makes `handleWebSocketMessage` end normally
in the state it started from, except that the console has one more entry, the
log of the unknown type: the view-model, every page element, the timers and
the sockets are untouched. -/
theorem handleWebSocketMessage_unknown_type (clock : Clock) (message type : JVal) (s : State)
    (htype : message.getProp "type" = .ok type)
    (h1 : type ≠ .str "sensor_update") (h2 : type ≠ .str "system_status")
    (h3 : type ≠ .str "forecast_update") (h4 : type ≠ .str "ml_prediction") :
    handleWebSocketMessage clock message s =
      (.ok (), { s with
        console := s.console ++ [⟨.log, "Unknown message type:", .value type⟩] }) := by
  unfold handleWebSocketMessage
  simp only [Eff.run_bind, Eff.run_lift, htype]
  rfl

/-- C1 at the envelope `{"type": "ping", "data": {}}` on the connected
dashboard. -/
theorem handleWebSocketMessage_unknown_type_witness :
    handleWebSocketMessage Clock.noon (.obj [("type", .str "ping"), ("data", .obj [])])
        State.connected =
      (.ok (), { State.connected with
        console := State.connected.console ++
          [⟨.log, "Unknown message type:", .value (.str "ping")⟩] }) :=
  handleWebSocketMessage_unknown_type _ _ _ _ rfl (by simp) (by simp) (by simp) (by simp)

/-! ## Sending -/

theorem sendWebSocketMessage_closed (type : String) (data : JVal) (s : State)
    (h : s.channelClosed) :
    sendWebSocketMessage type data s =
      (.ok (), { s with
        console := s.console ++ [⟨.warn, "WebSocket not connected", .none⟩] }) := by
  unfold sendWebSocketMessage
  rcases h with h | ⟨socket, hs, hr⟩
  · simp [h]
  · have hws : ∃ i, s.ws = some i := by
      unfold State.currentSocket at hs
      cases hw : s.ws with
      | none => simp [hw] at hs
      | some i => exact ⟨i, rfl⟩
    obtain ⟨i, hi⟩ := hws
    cases hc : s.wsConnected <;> simp [hi, hs, hr, hc]

theorem sendWebSocketMessage_open (type : String) (data : JVal) (s : State) (i : Nat)
    (socket : Socket) (hc : s.wsConnected = true) (hi : s.ws = some i)
    (hs : s.sockets[i]? = some socket) (hr : socket.readyState = .OPEN) :
    sendWebSocketMessage type data s =
      (.ok (), { s with
        sockets := s.sockets.set i
          { socket with sent := socket.sent ++ [⟨type, defaultData data⟩] } }) := by
  have : s.currentSocket = some socket := by simp [State.currentSocket, hi, hs]
  unfold sendWebSocketMessage
  simp [hc, hi, this, hr]

theorem consoleBlind_bind {α β : Type} {m : Eff α} {k : α → Eff β}
    (hm : m.ConsoleBlind) (hk : ∀ a, (k a).ConsoleBlind) : (m >>= k).ConsoleBlind := by
  intro s t hst
  obtain ⟨h1, h2⟩ := hm s t hst
  simp only [Eff.run_bind]
  rcases hs : m s with ⟨rs, s'⟩
  rcases ht : m t with ⟨rt, t'⟩
  rw [hs, ht] at h1 h2
  simp only at h1 h2
  subst h1
  cases rs with
  | ok a => exact hk a s' t' h2
  | error e => exact ⟨rfl, h2⟩

theorem consoleBlind_modify {f : State → State}
    (hf : ∀ s t, s.sameButConsole t → (f s).sameButConsole (f t)) :
    (Eff.modify f).ConsoleBlind := by
  intro s t hst
  exact ⟨rfl, hf s t hst⟩

theorem console_consoleBlind (level : LogLevel) (message : String) (arg : LogArg) :
    (console level message arg).ConsoleBlind := by
  intro s t hst
  refine ⟨rfl, ?_⟩
  unfold State.sameButConsole at *
  simp only [run_console]
  rw [hst]

theorem updateSystemStatus_consoleBlind (status : String) :
    (updateSystemStatus status).ConsoleBlind := by
  intro s t hst
  unfold State.sameButConsole at hst
  rw [hst]
  unfold updateSystemStatus State.sameButConsole
  simp only
  repeat' split
  all_goals exact ⟨rfl, rfl⟩

theorem sendWebSocketMessage_consoleBlind (type : String) (data : JVal) :
    (sendWebSocketMessage type data).ConsoleBlind := by
  intro s t hst
  unfold State.sameButConsole at hst
  rw [hst]
  unfold sendWebSocketMessage State.sameButConsole State.currentSocket
  simp only [run_console]
  repeat' split
  all_goals exact ⟨rfl, rfl⟩

theorem socketOpens_consoleBlind (i : Nat) : (socketOpens i).ConsoleBlind := by
  unfold socketOpens onopen requestInitialData
  refine consoleBlind_bind (consoleBlind_modify ?_) fun _ => ?_
  · intro s t hst
    unfold State.sameButConsole at *
    rw [hst]
    simp only
    split <;> rfl
  · refine consoleBlind_bind (console_consoleBlind _ _ _) fun _ => ?_
    refine consoleBlind_bind (consoleBlind_modify ?_) fun _ => ?_
    · intro s t hst
      unfold State.sameButConsole at *
      rw [hst]
    refine consoleBlind_bind (updateSystemStatus_consoleBlind _) fun _ => ?_
    refine consoleBlind_bind (sendWebSocketMessage_consoleBlind _ _) fun _ => ?_
    refine consoleBlind_bind (sendWebSocketMessage_consoleBlind _ _) fun _ => ?_
    refine consoleBlind_bind (sendWebSocketMessage_consoleBlind _ _) fun _ => ?_
    exact sendWebSocketMessage_consoleBlind _ _

/-- C3: while the channel is not open, `sendWebSocketMessage` ends normally in
the state it started from with exactly one warning added to the console: no
socket receives anything and nothing is stored for later, so that a socket
that opens afterwards sends exactly what it would have sent without the
attempt.  While the channel is open, the socket `ws` gets exactly one more
envelope, `{type, data}`, and nothing else changes. -/
theorem sendWebSocketMessage_spec (type : String) (data : JVal) (s : State) :
    (s.channelClosed →
      sendWebSocketMessage type data s =
          (.ok (), { s with
            console := s.console ++ [⟨.warn, "WebSocket not connected", .none⟩] }) ∧
        ∀ i, (socketOpens i (sendWebSocketMessage type data s).2).2.sockets =
          (socketOpens i s).2.sockets) ∧
    (∀ i socket, s.wsConnected = true → s.ws = some i → s.sockets[i]? = some socket →
      socket.readyState = .OPEN →
      sendWebSocketMessage type data s =
        (.ok (), { s with
          sockets := s.sockets.set i
            { socket with sent := socket.sent ++ [⟨type, defaultData data⟩] } })) := by
  refine ⟨fun h => ⟨sendWebSocketMessage_closed type data s h, fun i => ?_⟩,
    fun i socket hc hi hs hr => sendWebSocketMessage_open type data s i socket hc hi hs hr⟩
  rw [sendWebSocketMessage_closed type data s h]
  have hrel : s.sameButConsole
      { s with console := s.console ++ [⟨.warn, "WebSocket not connected", .none⟩] } := rfl
  have h2 := (socketOpens_consoleBlind i s _ hrel).2
  unfold State.sameButConsole at h2
  simp only
  rw [h2]

/-- C3 on the dashboard before any socket is open (the request is dropped
with a warning) and after `ws` has opened (the request is the fifth envelope
written to the socket). -/
theorem sendWebSocketMessage_spec_witness :
    sendWebSocketMessage "request_forecast" .undefined State.dashboard =
        (.ok (), { State.dashboard with
          console := State.dashboard.console ++ [⟨.warn, "WebSocket not connected", .none⟩] }) ∧
      ((sendWebSocketMessage "request_forecast" .undefined State.connected).2.sockets.map
        fun socket => socket.sent.length) = [5] :=
  ⟨((sendWebSocketMessage_spec "request_forecast" .undefined State.dashboard).1
      (Or.inl rfl)).1,
    by
      rw [(sendWebSocketMessage_spec "request_forecast" .undefined State.connected).2 0
        ⟨"ws://station.local:81", .OPEN,
          [⟨"request_sensor_data", .obj []⟩, ⟨"request_system_status", .obj []⟩,
            ⟨"request_forecast", .obj []⟩, ⟨"request_ml_prediction", .obj []⟩]⟩
        rfl rfl rfl rfl]
      rfl⟩

/-! ## Socket events -/

theorem mem_classListAdd (classes : List String) (token : String) :
    token ∈ classListAdd classes token := by
  unfold classListAdd
  split
  · assumption
  · simp

theorem not_mem_classListAdd_remove (classes : List String) (a b : String) (hab : a ≠ b) :
    a ∉ classListAdd (classListRemove classes a) b := by
  unfold classListAdd classListRemove
  split <;> simp [hab]

/-- C4: on a page whose status indicator is usable, the close handler ends
normally with `wsConnected` false and exactly one timer added after the
pending ones, which runs `initWebSocket` after 3000 ms; it creates no socket
and leaves `ws` as it is.  Where the page has the indicator, its dot carries
the class `offline` and not `online` and its text reads `Offline`. -/
theorem onclose_spec (s : State) (h : s.indicatorUsable) :
    (onclose s).1 = .ok () ∧
    (onclose s).2.wsConnected = false ∧
    (onclose s).2.timers = s.timers ++ [⟨3000, .initWebSocket⟩] ∧
    (onclose s).2.sockets = s.sockets ∧
    (onclose s).2.ws = s.ws ∧
    (∀ classes text, s.indicator = some ⟨some classes, some text⟩ →
      ∃ dot, (onclose s).2.indicator = some ⟨some dot, some "Offline"⟩ ∧
        "offline" ∈ dot ∧ "online" ∉ dot) := by
  rcases h with h | ⟨classes, text, h⟩
  · simp [onclose, updateSystemStatus, h]
  · simp [onclose, updateSystemStatus, h, mem_classListAdd, not_mem_classListAdd_remove]

/-- C4 on the connected dashboard: after the close event one timer is
pending, for `initWebSocket` in 3000 ms, and still only one socket exists. -/
theorem onclose_spec_witness :
    State.connected.indicatorUsable ∧
    (onclose State.connected).2.timers = [⟨3000, .initWebSocket⟩] ∧
    (onclose State.connected).2.sockets.length = 1 :=
  ⟨Or.inr ⟨_, _, rfl⟩,
    (onclose_spec State.connected (Or.inr ⟨_, _, rfl⟩)).2.2.1,
    by rw [(onclose_spec State.connected (Or.inr ⟨_, _, rfl⟩)).2.2.2.1]; rfl⟩

/-- C6, as stated, fails: after an error event on the connected dashboard
`wsConnected` is still true; the handler has not marked the connection
closed. -/
theorem onerror_keeps_connected :
    State.connected.wsConnected = true ∧ (onerror State.connected).2.wsConnected ≠ false := by
  constructor
  · rfl
  · have h : (onerror State.connected).2.wsConnected = true := rfl
    simp [h]

/-- C6, amended: the error handler ends normally, adds exactly one entry (the
error) to the console and leaves `wsConnected`, `ws`, the sockets with what
they have sent, the timers, the requests and the view-model as they were. -/
theorem onerror_spec (s : State) :
    (onerror s).1 = .ok () ∧
    (onerror s).2.console = s.console ++ [⟨.error, "WebSocket error:", .none⟩] ∧
    (onerror s).2.wsConnected = s.wsConnected ∧
    (onerror s).2.ws = s.ws ∧
    (onerror s).2.sockets = s.sockets ∧
    (onerror s).2.timers = s.timers ∧
    (onerror s).2.requests = s.requests ∧
    (onerror s).2.sensorData = s.sensorData ∧
    (onerror s).2.systemStatus = s.systemStatus := by
  cases h : s.indicator <;> simp [onerror, updateSystemStatus, h]

/-! ## Frame rules -/

theorem preserves_pure {α β : Type} (f : State → β) (a : α) :
    Eff.Preserves f (Pure.pure a : Eff α) := fun _ => rfl

theorem preserves_throw {α β : Type} (f : State → β) (e : JSError) :
    Eff.Preserves f (Eff.throw e : Eff α) := fun _ => rfl

theorem preserves_lift {α β : Type} (f : State → β) (r : Except JSError α) :
    Eff.Preserves f (Eff.lift r) := fun _ => rfl

theorem preserves_read {β : Type} (f : State → β) : Eff.Preserves f Eff.read :=
  fun _ => rfl

theorem preserves_modify {β : Type} {f : State → β} {g : State → State}
    (h : ∀ s, f (g s) = f s) : Eff.Preserves f (Eff.modify g) := h

theorem preserves_bind {α β γ : Type} {f : State → γ} {m : Eff α} {k : α → Eff β}
    (hm : Eff.Preserves f m) (hk : ∀ a, Eff.Preserves f (k a)) :
    Eff.Preserves f (m >>= k) := by
  intro s
  have h1 := hm s
  simp only [Eff.run_bind]
  rcases hs : m s with ⟨r, s'⟩
  rw [hs] at h1
  cases r with
  | ok a => exact (hk a s').trans h1
  | error e => exact h1

theorem preserves_tryCatch {α γ : Type} {f : State → γ} {m : Eff α}
    {h : JSError → Eff α} (hm : Eff.Preserves f m) (hh : ∀ e, Eff.Preserves f (h e)) :
    Eff.Preserves f (Eff.tryCatch m h) := by
  intro s
  have h1 := hm s
  unfold Eff.tryCatch
  rcases hs : m s with ⟨r, s'⟩
  rw [hs] at h1
  cases r with
  | ok a => exact h1
  | error e => exact (hh e s').trans h1

theorem updateElement_connection (id content : String) (className : Option String) :
    Eff.Preserves State.connection (updateElement id content className) := by
  intro s
  simp only [updateElement, Eff.run_modify]
  split <;> rfl

theorem render_connection (id : String) (text : Except JSError String) :
    Eff.Preserves State.connection (render id text) :=
  preserves_bind (preserves_lift _ _) fun _ => updateElement_connection _ _ _

theorem updateElementValue_connection (id : String) (content : JVal) :
    Eff.Preserves State.connection (updateElementValue id content) := by
  unfold updateElementValue
  refine preserves_bind (preserves_read _) fun s => ?_
  split
  · exact preserves_pure _ _
  · exact preserves_bind (preserves_lift _ _) fun _ => updateElement_connection _ _ _

theorem updateTimestamp_connection (clock : Clock) :
    Eff.Preserves State.connection (updateTimestamp clock) :=
  preserves_bind (updateElement_connection _ _ _) fun _ => updateElement_connection _ _ _

theorem handleSensorUpdate_connection (clock : Clock) (data : JVal) :
    Eff.Preserves State.connection (handleSensorUpdate clock data) := by
  unfold handleSensorUpdate updateIndoorMain updateIndoorSecondary updateOutdoor updateHeartRate
  repeat' first
    | exact preserves_pure _ _
    | exact preserves_lift _ _
    | exact preserves_modify fun _ => rfl
    | exact render_connection _ _
    | exact updateElement_connection _ _ _
    | exact updateTimestamp_connection _
    | refine preserves_bind ?_ fun _ => ?_
    | split

theorem handleSystemStatus_connection (data : JVal) :
    Eff.Preserves State.connection (handleSystemStatus data) := by
  unfold handleSystemStatus
  repeat' first
    | exact preserves_modify fun _ => rfl
    | exact render_connection _ _
    | refine preserves_bind ?_ fun _ => ?_

theorem appendForecastDays_connection (days : List JVal) (index : Nat) :
    Eff.Preserves State.connection (appendForecastDays days index) := by
  induction days generalizing index with
  | nil => exact preserves_pure _ _
  | cons day rest ih =>
    unfold appendForecastDays
    repeat' first
      | exact preserves_lift _ _
      | exact preserves_modify fun _ => rfl
      | exact ih _
      | refine preserves_bind ?_ fun _ => ?_

theorem handleForecastUpdate_connection (data : JVal) :
    Eff.Preserves State.connection (handleForecastUpdate data) := by
  unfold handleForecastUpdate
  dsimp only
  repeat' first
    | exact preserves_pure _ _
    | exact preserves_lift _ _
    | exact preserves_read _
    | exact preserves_throw _ _
    | exact preserves_modify fun _ => rfl
    | exact appendForecastDays_connection _ _
    | refine preserves_bind ?_ fun _ => ?_
    | split

theorem handleMLPrediction_connection (data : JVal) :
    Eff.Preserves State.connection (handleMLPrediction data) := by
  unfold handleMLPrediction
  dsimp only
  repeat' first
    | exact preserves_pure _ _
    | exact preserves_lift _ _
    | exact preserves_read _
    | exact preserves_throw _ _
    | exact preserves_modify fun _ => rfl
    | exact render_connection _ _
    | exact updateElement_connection _ _ _
    | exact updateElementValue_connection _ _
    | refine preserves_bind ?_ fun _ => ?_
    | split

theorem handleWebSocketMessage_connection (clock : Clock) (message : JVal) :
    Eff.Preserves State.connection (handleWebSocketMessage clock message) := by
  unfold handleWebSocketMessage
  repeat' first
    | exact preserves_lift _ _
    | exact preserves_modify fun _ => rfl
    | exact handleSensorUpdate_connection _ _
    | exact handleSystemStatus_connection _
    | exact handleForecastUpdate_connection _
    | exact handleMLPrediction_connection _
    | refine preserves_bind ?_ fun _ => ?_
    | split

theorem onmessage_connection (clock : Clock) (parsed : Option JVal) :
    Eff.Preserves State.connection (onmessage clock parsed) := by
  unfold onmessage
  refine preserves_tryCatch ?_ fun _ => preserves_modify fun _ => rfl
  split
  · exact preserves_throw _ _
  · exact handleWebSocketMessage_connection _ _

/-! ## Incoming messages -/

/-- C5, as stated, fails: a `system_status` envelope without `data` and a
`sensor_update` whose indoor temperature is the text `hot` both make the
handler throw a TypeError, and both leave the view-model changed (the first
has replaced `systemStatus` by `undefined`, the second has stored the new
`indoor_main`). -/
theorem onmessage_malformed_changes_viewModel :
    (handleWebSocketMessage Clock.noon (.obj [("type", .str "system_status")])
        State.connected).1 = .error .typeError ∧
    (onmessage Clock.noon (some (.obj [("type", .str "system_status")]))
        State.connected).2.systemStatus ≠ State.connected.systemStatus ∧
    (handleWebSocketMessage Clock.noon (.obj [("type", .str "sensor_update"),
        ("data", .obj [("indoor_main", .obj [("temperature", .str "hot")])])])
        State.connected).1 = .error .typeError ∧
    (onmessage Clock.noon (some (.obj [("type", .str "sensor_update"),
        ("data", .obj [("indoor_main", .obj [("temperature", .str "hot")])])]))
        State.connected).2.sensorData.indoor_main ≠ State.connected.sensorData.indoor_main := by
  refine ⟨rfl, ?_, rfl, ?_⟩
  · have h1 : (onmessage Clock.noon (some (.obj [("type", .str "system_status")]))
        State.connected).2.systemStatus = .undefined := rfl
    have h2 : State.connected.systemStatus = .obj [("uptime", .num (.fin 0)),
        ("heap", .num (.fin 0)), ("wifi_signal", .num (.fin 0)),
        ("temperature", .num (.fin 0))] := rfl
    rw [h1, h2]
    exact JVal.noConfusion
  · have h1 : (onmessage Clock.noon (some (.obj [("type", .str "sensor_update"),
        ("data", .obj [("indoor_main", .obj [("temperature", .str "hot")])])]))
        State.connected).2.sensorData.indoor_main = .obj [("temperature", .str "hot")] := rfl
    have h2 : State.connected.sensorData.indoor_main = .obj [] := rfl
    rw [h1, h2]
    simp

/-- C5, amended: for every incoming payload, malformed or not, the message
handler ends normally (no exception escapes) and leaves the connection as it
was: no timer is added, no socket is created or written.  A failure of the
dispatched handler is caught and logged: the state is the one reached at the
throw plus one console error.  When the text is not valid JSON, is the JSON
`null`, or is a `sensor_update` whose `data` is absent or `null`, that state is
the one before the message, so the view-model is unchanged. -/
theorem onmessage_spec (clock : Clock) (parsed : Option JVal) (s : State) :
    (onmessage clock parsed s).1 = .ok () ∧
    (onmessage clock parsed s).2.connection = s.connection ∧
    (∀ message e s', parsed = some message →
      handleWebSocketMessage clock message s = (.error e, s') →
      (onmessage clock parsed s).2 = { s' with
        console := s'.console ++
          [⟨.error, "Error parsing WebSocket message:", .exception e⟩] }) ∧
    (parsed = none →
      (onmessage clock parsed s).2 = { s with
        console := s.console ++
          [⟨.error, "Error parsing WebSocket message:", .exception .syntaxError⟩] }) ∧
    (parsed = some .null →
      (onmessage clock parsed s).2 = { s with
        console := s.console ++
          [⟨.error, "Error parsing WebSocket message:", .exception .typeError⟩] }) ∧
    (∀ fields, parsed = some (.obj fields) →
      fields.lookup "type" = some (.str "sensor_update") →
      fields.lookup "data" = none ∨ fields.lookup "data" = some .null →
      (onmessage clock parsed s).2 = { s with
        console := s.console ++
          [⟨.error, "Error parsing WebSocket message:", .exception .typeError⟩] }) := by
  refine ⟨?_, onmessage_connection clock parsed s, ?_, ?_, ?_, ?_⟩
  · unfold onmessage Eff.tryCatch
    simp only
    split <;> rfl
  · intro message e s' hp hm
    subst hp
    simp only [onmessage, Eff.tryCatch, hm]
    rfl
  · intro hp
    subst hp
    rfl
  · intro hp
    subst hp
    rfl
  · intro fields hp ht hd
    subst hp
    have hm : handleWebSocketMessage clock (.obj fields) s = (.error .typeError, s) := by
      unfold handleWebSocketMessage
      rcases hd with hd | hd <;>
        simp [JVal.getProp, ht, hd, handleSensorUpdate, updateIndoorMain]
    simp only [onmessage, Eff.tryCatch, hm]
    rfl

/-- C5, amended, on the connected dashboard: the text `not json` (which
`JSON.parse` rejects), the JSON `null` and a `sensor_update` without data are
logged and leave the rest of the state as it was; a `system_status` without
data is logged after `systemStatus` has become `undefined`. -/
theorem onmessage_spec_witness :
    (onmessage Clock.noon none State.connected).2 = { State.connected with
      console := State.connected.console ++
        [⟨.error, "Error parsing WebSocket message:", .exception .syntaxError⟩] } ∧
    (onmessage Clock.noon (some .null) State.connected).2 = { State.connected with
      console := State.connected.console ++
        [⟨.error, "Error parsing WebSocket message:", .exception .typeError⟩] } ∧
    (onmessage Clock.noon (some (.obj [("type", .str "sensor_update")]))
        State.connected).2 = { State.connected with
      console := State.connected.console ++
        [⟨.error, "Error parsing WebSocket message:", .exception .typeError⟩] } ∧
    (onmessage Clock.noon (some (.obj [("type", .str "system_status")]))
        State.connected).2 = { ({ State.connected with systemStatus := .undefined } : State) with
      console := ({ State.connected with systemStatus := .undefined } : State).console ++
        [⟨.error, "Error parsing WebSocket message:", .exception .typeError⟩] } :=
  ⟨(onmessage_spec Clock.noon none State.connected).2.2.2.1 rfl,
    (onmessage_spec Clock.noon (some .null) State.connected).2.2.2.2.1 rfl,
    (onmessage_spec Clock.noon (some (.obj [("type", .str "sensor_update")]))
      State.connected).2.2.2.2.2 _ rfl rfl (Or.inl rfl),
    (onmessage_spec Clock.noon (some (.obj [("type", .str "system_status")]))
      State.connected).2.2.1 _ _ _ rfl rfl⟩

/-! ## Partial sensor updates -/

theorem updateElement_outsideOutdoor (id content : String) (className : Option String)
    (hid : id ∈ outdoorIds ++ timestampIds) :
    Eff.Preserves State.outsideOutdoor (updateElement id content className) := by
  intro s
  simp only [updateElement, Eff.run_modify]
  split
  · rfl
  · unfold State.outsideOutdoor
    simp only [State.mk.injEq, true_and, and_true]
    funext j
    by_cases hj : j = id
    · subst hj
      simp [hid]
    · simp [hj]

theorem render_outsideOutdoor (id : String) (text : Except JSError String)
    (hid : id ∈ outdoorIds ++ timestampIds) :
    Eff.Preserves State.outsideOutdoor (render id text) :=
  preserves_bind (preserves_lift _ _) fun _ => updateElement_outsideOutdoor _ _ _ hid

theorem updateOutdoor_outsideOutdoor (data : JVal) :
    Eff.Preserves State.outsideOutdoor (updateOutdoor data) := by
  unfold updateOutdoor
  repeat' first
    | exact preserves_pure _ _
    | exact preserves_lift _ _
    | exact preserves_modify fun _ => rfl
    | exact render_outsideOutdoor _ _ (by decide)
    | refine preserves_bind ?_ fun _ => ?_
    | split

theorem updateTimestamp_outsideOutdoor (clock : Clock) :
    Eff.Preserves State.outsideOutdoor (updateTimestamp clock) :=
  preserves_bind (updateElement_outsideOutdoor _ _ _ (by decide)) fun _ =>
    updateElement_outsideOutdoor _ _ _ (by decide)

theorem updateElement_sensorData (id content : String) (className : Option String) :
    Eff.Preserves State.sensorData (updateElement id content className) := by
  intro s
  simp only [updateElement, Eff.run_modify]
  split <;> rfl

theorem render_sensorData (id : String) (text : Except JSError String) :
    Eff.Preserves State.sensorData (render id text) :=
  preserves_bind (preserves_lift _ _) fun _ => updateElement_sensorData _ _ _

theorem updateTimestamp_sensorData (clock : Clock) :
    Eff.Preserves State.sensorData (updateTimestamp clock) :=
  preserves_bind (updateElement_sensorData _ _ _) fun _ => updateElement_sensorData _ _ _

theorem Eff.lift_ok_bind {α β : Type} (a : α) (k : α → Eff β) :
    (Eff.lift (.ok a) >>= k) = k a := rfl

theorem preserves_bind_right {α β γ : Type} {f : State → γ} {m : Eff α} {k : α → Eff β}
    (hk : ∀ a, Eff.Preserves f (k a)) (s : State) :
    f ((m >>= k) s).2 = f (m s).2 := by
  simp only [Eff.run_bind]
  rcases m s with ⟨r, s'⟩
  cases r with
  | ok a => exact hk a s'
  | error e => rfl

theorem handleSensorUpdate_without_indoor (clock : Clock) (fields : List (String × JVal))
    (h1 : fields.lookup "indoor_main" = none) (h2 : fields.lookup "indoor_secondary" = none)
    (h3 : fields.lookup "heart_rate" = none) :
    handleSensorUpdate clock (.obj fields) =
      (updateOutdoor (.obj fields) >>= fun _ => updateTimestamp clock) := by
  funext s
  simp [handleSensorUpdate, updateIndoorMain, updateIndoorSecondary, updateHeartRate,
    JVal.getProp, h1, h2, h3, JVal.truthy]

/-- C2: a `sensor_update` whose data has no `indoor_main`, no
`indoor_secondary` and no `heart_rate` leaves everything but the outdoor part
as it was: the state after `handleSensorUpdate` differs from the state before
at most in `sensorData.outdoor`, in the five outdoor elements and in the two
timestamp elements.  In particular `sensorData.indoor_main`,
`sensorData.indoor_secondary` and the eight elements of the two rooms keep
their prior values, also when the handler throws on the way; and a truthy
`outdoor` section is stored in `sensorData.outdoor`. -/
theorem handleSensorUpdate_outdoor_only (clock : Clock) (fields : List (String × JVal))
    (s : State) (h1 : fields.lookup "indoor_main" = none)
    (h2 : fields.lookup "indoor_secondary" = none)
    (h3 : fields.lookup "heart_rate" = none) :
    (handleSensorUpdate clock (.obj fields) s).2.outsideOutdoor = s.outsideOutdoor ∧
    (handleSensorUpdate clock (.obj fields) s).2.sensorData.indoor_main =
      s.sensorData.indoor_main ∧
    (handleSensorUpdate clock (.obj fields) s).2.sensorData.indoor_secondary =
      s.sensorData.indoor_secondary ∧
    (∀ id ∈ roomIds,
      (handleSensorUpdate clock (.obj fields) s).2.elements id = s.elements id) ∧
    (∀ outdoor, fields.lookup "outdoor" = some outdoor → outdoor.truthy = true →
      (handleSensorUpdate clock (.obj fields) s).2.sensorData.outdoor = outdoor) := by
  have hframe : (handleSensorUpdate clock (.obj fields) s).2.outsideOutdoor =
      s.outsideOutdoor := by
    rw [handleSensorUpdate_without_indoor clock fields h1 h2 h3]
    exact preserves_bind (updateOutdoor_outsideOutdoor _)
      (fun _ => updateTimestamp_outsideOutdoor clock) s
  refine ⟨hframe, ?_, ?_, ?_, ?_⟩
  · exact congrArg (fun t => t.sensorData.indoor_main) hframe
  · exact congrArg (fun t => t.sensorData.indoor_secondary) hframe
  · intro id hid
    have h := congrFun (congrArg State.elements hframe) id
    have hn : id ∉ outdoorIds ++ timestampIds := by
      simp only [roomIds, List.mem_cons, List.mem_singleton, List.not_mem_nil, or_false] at hid
      rcases hid with h | h | h | h | h | h | h | h <;> subst h <;> decide
    simp only [State.outsideOutdoor, if_neg hn] at h
    exact h
  · intro outdoor ho ht
    rw [handleSensorUpdate_without_indoor clock fields h1 h2 h3]
    have hget : (JVal.obj fields).getProp "outdoor" = .ok outdoor := by
      simp [JVal.getProp, ho]
    unfold updateOutdoor
    rw [hget, Eff.lift_ok_bind]
    simp only [ht, if_true]
    refine (congrArg SensorData.outdoor (preserves_bind_right ?_ s)).trans ?_
    · exact fun _ => updateTimestamp_sensorData clock
    refine (congrArg SensorData.outdoor (preserves_bind_right ?_ s)).trans ?_
    · intro _
      repeat' first
        | exact render_sensorData _ _
        | refine preserves_bind ?_ fun _ => ?_
    rfl

/-- C2 at the envelope data `{"outdoor": {"temperature": 21}}` on the
connected dashboard. -/
theorem handleSensorUpdate_outdoor_only_witness :
    (handleSensorUpdate Clock.noon (.obj [("outdoor", .obj [("temperature", .num (.fin 21))])])
        State.connected).2.sensorData.indoor_main = State.connected.sensorData.indoor_main :=
  (handleSensorUpdate_outdoor_only Clock.noon
    [("outdoor", .obj [("temperature", .num (.fin 21))])] State.connected rfl rfl rfl).2.1

/-! ## HTTP operations -/

theorem apiCall_failed (endpoint method : String) (data : Option (List (String × BodyField)))
    (outcome : HttpOutcome) (h : outcome.failed) (s : State) :
    apiCall endpoint method data outcome s =
      (.ok .null, { s with
        requests := s.requests ++ [⟨CONFIG.API_BASE ++ endpoint, method, data⟩]
        console := s.console ++ [⟨.error, "API call failed:", .exception outcome.error⟩] }) := by
  cases outcome with
  | networkError => rfl
  | response status body =>
    rcases h with h | h
    · simp [apiCall, Eff.tryCatch, HttpOutcome.error, h]
    · subst h
      by_cases hs : 200 ≤ status ∧ status ≤ 299 <;>
        simp [apiCall, Eff.tryCatch, HttpOutcome.error, hs]

/-- C7, as stated, fails for three of the six operations: when the fetch is
rejected or answers 500, `scanWiFiNetworks` shows no alert at all, and
`restartSystem` and `factoryReset` show their success alert. -/
theorem failed_call_not_reported :
    (scanWiFiNetworks .networkError State.dashboard).2.alerts = [] ∧
    (restartSystem true (.response 500 none) State.dashboard).2.alerts =
      [⟨"alert alert-success", "System restarting..."⟩] ∧
    (factoryReset true true .networkError State.dashboard).2.alerts =
      [⟨"alert alert-success", "Factory reset in progress..."⟩] :=
  ⟨rfl, rfl, rfl⟩

/-- C7, amended: when the call fails, `apiCall` catches the failure: it ends
normally with `null`, having issued its one request and logged one console
error.  Each of the six operations then ends normally with exactly that one
request added (none is issued again), and `saveWiFiConfig`, `saveAPIConfig`
and `testAPIConnection` add one error alert that says the operation failed. -/
theorem apiCall_failure_handling (outcome : HttpOutcome) (h : outcome.failed) (s : State) :
    (∀ endpoint method data,
      apiCall endpoint method data outcome s =
        (.ok .null, { s with
          requests := s.requests ++ [⟨CONFIG.API_BASE ++ endpoint, method, data⟩]
          console := s.console ++ [⟨.error, "API call failed:", .exception outcome.error⟩] })) ∧
    ((scanWiFiNetworks outcome s).1 = .ok () ∧
      (scanWiFiNetworks outcome s).2.requests = s.requests ++ [⟨"/api/wifi/scan", "GET", none⟩]) ∧
    ((saveWiFiConfig outcome s).1 = .ok () ∧
      (∃ body, (saveWiFiConfig outcome s).2.requests =
        s.requests ++ [⟨"/api/config/wifi", "POST", some body⟩]) ∧
      (saveWiFiConfig outcome s).2.alerts =
        s.alerts ++ [⟨"alert alert-error", "Failed to save configuration"⟩]) ∧
    ((saveAPIConfig outcome s).1 = .ok () ∧
      (∃ body, (saveAPIConfig outcome s).2.requests =
        s.requests ++ [⟨"/api/config/api", "POST", some body⟩]) ∧
      (saveAPIConfig outcome s).2.alerts =
        s.alerts ++ [⟨"alert alert-error", "Failed to save API configuration"⟩]) ∧
    ((testAPIConnection outcome s).1 = .ok () ∧
      (testAPIConnection outcome s).2.requests = s.requests ++ [⟨"/api/api/test", "GET", none⟩] ∧
      (testAPIConnection outcome s).2.alerts =
        s.alerts ++ [⟨"alert alert-error", "API connection failed"⟩]) ∧
    ((restartSystem true outcome s).1 = .ok () ∧
      (restartSystem true outcome s).2.requests =
        s.requests ++ [⟨"/api/system/restart", "POST", none⟩]) ∧
    ((factoryReset true true outcome s).1 = .ok () ∧
      (factoryReset true true outcome s).2.requests =
        s.requests ++ [⟨"/api/system/reset", "POST", none⟩]) := by
  refine ⟨fun e m d => apiCall_failed e m d outcome h s, ?_, ?_, ?_, ?_, ?_, ?_⟩
  · simp [scanWiFiNetworks, apiCall_failed _ _ _ outcome h, JVal.truthy, CONFIG.API_BASE]
  · simp [saveWiFiConfig, apiCall_failed _ _ _ outcome h, JVal.truthy, CONFIG.API_BASE,
      resultSuccess, showAlert]
  · simp [saveAPIConfig, apiCall_failed _ _ _ outcome h, JVal.truthy, CONFIG.API_BASE,
      resultSuccess, showAlert]
  · simp [testAPIConnection, apiCall_failed _ _ _ outcome h, JVal.truthy, CONFIG.API_BASE,
      resultSuccess, showAlert]
  · simp [restartSystem, apiCall_failed _ _ _ outcome h, CONFIG.API_BASE, showAlert]
  · simp [factoryReset, apiCall_failed _ _ _ outcome h, CONFIG.API_BASE, showAlert]

/-- C7, amended, at a rejected fetch on the dashboard: saving the WiFi
configuration ends with the one error alert. -/
theorem apiCall_failure_handling_witness :
    HttpOutcome.networkError.failed ∧
    (saveWiFiConfig .networkError State.dashboard).2.alerts =
      [⟨"alert alert-error", "Failed to save configuration"⟩] :=
  ⟨trivial,
    (apiCall_failure_handling .networkError trivial State.dashboard).2.2.1.2.2⟩

/-! ## Decimal digits -/

theorem toDigitsCore_append (f n : Nat) (ds : List Char) :
    Nat.toDigitsCore 10 f n ds = Nat.toDigitsCore 10 f n [] ++ ds := by
  induction f generalizing n ds with
  | zero => simp [Nat.toDigitsCore]
  | succ f ih =>
    simp only [Nat.toDigitsCore]
    split
    · simp
    · rw [ih (n / 10) (Nat.digitChar (n % 10) :: ds), ih (n / 10) [Nat.digitChar (n % 10)]]
      simp

theorem toDigitsCore_fuel (f g n : Nat) (hf : n < f) (hg : n < g) (ds : List Char) :
    Nat.toDigitsCore 10 f n ds = Nat.toDigitsCore 10 g n ds := by
  induction f generalizing g n ds with
  | zero => omega
  | succ f ih =>
    cases g with
    | zero => omega
    | succ g =>
      simp only [Nat.toDigitsCore]
      split
      · rfl
      · exact ih g (n / 10) (by omega) (by omega) _

theorem toDigits_small (n : Nat) (h : n < 10) : Nat.toDigits 10 n = [Nat.digitChar n] := by
  simp [Nat.toDigits, Nat.toDigitsCore, Nat.div_eq_of_lt h, Nat.mod_eq_of_lt h]

theorem toDigits_large (n : Nat) (h : 10 ≤ n) :
    Nat.toDigits 10 n = Nat.toDigits 10 (n / 10) ++ [Nat.digitChar (n % 10)] := by
  have hne : n / 10 ≠ 0 := by omega
  have lhs : Nat.toDigitsCore 10 (n + 1) n [] =
      Nat.toDigitsCore 10 n (n / 10) [Nat.digitChar (n % 10)] := by
    simp only [Nat.toDigitsCore, hne, if_false]
  unfold Nat.toDigits
  rw [lhs, toDigitsCore_append, toDigitsCore_fuel n (n / 10 + 1) (n / 10) (by omega) (by omega)]

theorem toDigits_ne_nil (n : Nat) : Nat.toDigits 10 n ≠ [] := by
  by_cases h : n < 10
  · simp [toDigits_small n h]
  · simp [toDigits_large n (by omega)]

theorem digits_data (n : Nat) : (digits n).data = Nat.toDigits 10 n := rfl

theorem digits_small (n : Nat) (h : n < 10) : (digits n).data = [Nat.digitChar n] := by
  rw [digits_data, toDigits_small n h]

theorem digits_large (n : Nat) (h : 10 ≤ n) :
    digits n = digits (n / 10) ++ digits (n % 10) := by
  apply String.ext
  rw [String.data_append, digits_data, digits_data, toDigits_large n h,
    digits_small (n % 10) (by omega)]

theorem digits_length_small (n : Nat) (h : n < 10) : (digits n).length = 1 := by
  simp [String.length, digits_small n h]

theorem digits_length_large (n : Nat) (h : 10 ≤ n) : 2 ≤ (digits n).length := by
  have h1 : (digits n).length = (Nat.toDigits 10 (n / 10)).length + 1 := by
    simp [String.length, digits_data, toDigits_large n h]
  have h2 : (Nat.toDigits 10 (n / 10)).length ≠ 0 := by
    simpa using toDigits_ne_nil (n / 10)
  omega

/-! ## Temperature -/

theorem digits_zero : digits 0 = "0" := by decide

theorem split_last_digit (n : Nat) (m : String)
    (hm : m = if (digits n).length ≤ 1 then zeros (1 + 1 - (digits n).length) ++ digits n
      else digits n) :
    String.mk (m.data.take (m.length - 1)) = digits (n / 10) ∧
    String.mk (m.data.drop (m.length - 1)) = digits (n % 10) := by
  by_cases h : n < 10
  · have hl := digits_length_small n h
    have hd := digits_small n h
    have h0 : n / 10 = 0 := Nat.div_eq_of_lt h
    have h1 : n % 10 = n := Nat.mod_eq_of_lt h
    have hmd : m.data = ['0', Nat.digitChar n] := by
      rw [hm, hl]
      simp [zeros, hd, String.data_append]
    constructor
    · apply String.ext
      simp [String.length, hmd, h0, digits_zero]
    · apply String.ext
      simp [String.length, hmd, h1, hd]
  · have h10 : 10 ≤ n := by omega
    have hl := digits_length_large n h10
    have hmd : m.data = (digits (n / 10)).data ++ (digits (n % 10)).data := by
      rw [hm, if_neg (by omega), digits_large n h10, String.data_append]
    have hlast : (digits (n % 10)).data.length = 1 := by
      rw [digits_small (n % 10) (by omega)]
      rfl
    have hlen : m.length - 1 = (digits (n / 10)).data.length := by
      show m.data.length - 1 = _
      rw [hmd, List.length_append, hlast]
      rfl
    rw [hlen, hmd, List.take_left, List.drop_left]
    exact ⟨rfl, rfl⟩

theorem toFixed_one (q : ℚ) (h : |q| < 10 ^ 21) : toFixed (.fin q) 1 = oneDecimal q := by
  have hs := split_last_digit (nearestTenths q) _ rfl
  unfold toFixed oneDecimal
  simp only [not_le.mpr h, if_false, pow_one, one_ne_zero]
  unfold nearestTenths at hs ⊢
  rw [hs.1, hs.2]

theorem nearestTenths_near (q : ℚ) : |(nearestTenths q : ℚ) / 10 - abs q| ≤ 1 / 20 := by
  unfold nearestTenths
  have h0 : (0 : ℤ) ≤ ⌊|q| * 10 + 1 / 2⌋ := by
    apply Int.floor_nonneg.mpr
    have := abs_nonneg q
    linarith
  have hc : ((⌊|q| * 10 + 1 / 2⌋.toNat : ℕ) : ℚ) = (⌊|q| * 10 + 1 / 2⌋ : ℚ) := by
    have := Int.toNat_of_nonneg h0
    exact_mod_cast congrArg (fun z : ℤ => (z : ℚ)) this
  rw [hc, abs_le]
  have h1 := Int.floor_le (|q| * 10 + 1 / 2)
  have h2 := Int.lt_floor_add_one (|q| * 10 + 1 / 2)
  constructor <;> linarith

/-- C10, as stated, fails: the temperature `1e21` is numeric, and it is
printed as `1e+21 °C`, not as its value with one decimal place
(`1000000000000000000000.0 °C`). -/
theorem formatTemperature_large :
    formatTemperature (.num (.fin (10 ^ 21))) = .ok "1e+21 °C" ∧
    formatTemperature (.num (.fin (10 ^ 21))) ≠ .ok (oneDecimal (10 ^ 21) ++ " °C") := by
  decide!

/-- C10, amended: `formatTemperature` returns `-- °C` for `undefined` and for
`null`, and for every finite number of magnitude below `1e21` it returns the
value rounded to exactly one decimal place followed by ` °C`: the tenths are
the nearest to the value and exactly one digit follows the point.  In
particular `formatTemperature(21.46)` is `21.5 °C`, for the decimal 21.46 and
for the double that the literal denotes. -/
theorem formatTemperature_spec :
    formatTemperature .undefined = .ok "-- °C" ∧
    formatTemperature .null = .ok "-- °C" ∧
    (∀ q : ℚ, |q| < 10 ^ 21 →
      formatTemperature (.num (.fin q)) = .ok (oneDecimal q ++ " °C") ∧
      |(nearestTenths q : ℚ) / 10 - abs q| ≤ 1 / 20 ∧
      (digits (nearestTenths q % 10)).length = 1) ∧
    formatTemperature (.num (.fin (2146 / 100))) = .ok "21.5 °C" ∧
    formatTemperature (.num (roundToDouble (2146 / 100))) = .ok "21.5 °C" := by
  refine ⟨rfl, rfl, fun q h => ⟨?_, nearestTenths_near q, ?_⟩, by decide!, by decide!⟩
  · simp [formatTemperature, JVal.callToFixed, toFixed_one q h, Except.map]
  · exact digits_length_small _ (Nat.mod_lt _ (by norm_num))

/-- C10, amended, at the temperature `-3.25`, which is printed as `-3.3 °C`. -/
theorem formatTemperature_spec_witness :
    |(-13 / 4 : ℚ)| < 10 ^ 21 ∧
    formatTemperature (.num (.fin (-13 / 4))) = .ok (oneDecimal (-13 / 4) ++ " °C") ∧
    oneDecimal (-13 / 4) = "-3.3" :=
  ⟨by norm_num [abs_lt], (formatTemperature_spec.2.2.1 (-13 / 4) (by norm_num [abs_lt])).1,
    by decide!⟩

/-! ## Whole numbers as text -/

theorem log2Fuel_le (fuel x j : Nat) (h : x < 2 ^ (j + 1)) : log2Fuel fuel x ≤ j := by
  induction fuel generalizing x j with
  | zero => simp [log2Fuel]
  | succ fuel ih =>
    unfold log2Fuel
    split
    · omega
    · cases j with
      | zero => omega
      | succ j =>
        have : x / 2 < 2 ^ (j + 1) := by
          rw [Nat.div_lt_iff_lt_mul (by norm_num)]
          rw [pow_succ] at h
          exact h
        have := ih (x / 2) j this
        omega

theorem floorLog2_le (n d j : Nat) (h : n / d < 2 ^ (j + 1)) : floorLog2 n d ≤ j := by
  unfold floorLog2
  split
  · exact_mod_cast log2Fuel_le _ _ _ h
  · simp only
    split <;> omega

theorem roundHalfEven_bounds (N d : Nat) :
    N / d ≤ roundHalfEven N d ∧ roundHalfEven N d ≤ N / d + 1 ∧
      (roundHalfEven N d = N / d + 1 → d ≤ 2 * (N % d)) := by
  unfold roundHalfEven
  simp only
  split_ifs <;> refine ⟨by omega, by omega, fun _ => by omega⟩

theorem log2Fuel_spec (fuel x : Nat) (hf : x ≤ fuel) (hx : 1 ≤ x) :
    2 ^ log2Fuel fuel x ≤ x ∧ x < 2 ^ (log2Fuel fuel x + 1) := by
  induction fuel generalizing x with
  | zero => omega
  | succ fuel ih =>
    unfold log2Fuel
    split
    · simp
      omega
    · have h2 : 2 ≤ x := by omega
      obtain ⟨h3, h4⟩ := ih (x / 2) (by omega) (by omega)
      constructor
      · rw [pow_succ]
        omega
      · rw [pow_succ]
        omega

theorem floorLog2_nat (v : Nat) (hv : 1 ≤ v) :
    ∃ e : ℕ, floorLog2 v 1 = (e : ℤ) ∧ 2 ^ e ≤ v ∧ v < 2 ^ (e + 1) := by
  refine ⟨log2Fuel v v, ?_, ?_⟩
  · unfold floorLog2
    simp [hv]
  · simpa using log2Fuel_spec v v le_rfl hv

theorem roundHalfEven_one (v : Nat) : roundHalfEven v 1 = v := by
  simp [roundHalfEven, Nat.mod_one]

theorem roundPos_nat_small (v : Nat) (hv : 1 ≤ v) (h : v < 2 ^ 53) : roundPos v 1 = .fin v := by
  obtain ⟨e, he, h1, h2⟩ := floorLog2_nat v hv
  have he52 : e ≤ 52 := by
    by_contra hc
    have : 2 ^ 53 ≤ 2 ^ e := Nat.pow_le_pow_right (by norm_num) (by omega)
    omega
  have hp : ulpExp v 1 = (e : ℤ) - 52 := by
    unfold ulpExp
    rw [he]
    omega
  unfold roundPos significand scale2
  simp only [hp]
  by_cases h0 : (0 : ℤ) ≤ (e : ℤ) - 52
  · have : e = 52 := by omega
    subst this
    simp [roundHalfEven_one]
  · have hk : (-((e : ℤ) - 52)).toNat = 52 - e := by omega
    simp only [h0, if_false, hk, roundHalfEven_one]
    rw [if_neg (by omega)]
    congr 1
    rw [Rat.mkRat_eq_div]
    push_cast
    field_simp

theorem roundPos_nat_large (v n : Nat) (h : 2 ^ 53 ≤ v) (hn : n < 2 ^ 53) :
    roundPos v 1 ≠ .fin n := by
  obtain ⟨e, he, h1, h2⟩ := floorLog2_nat v (by
    have : 0 < 2 ^ 53 := by positivity
    omega)
  have he53 : 53 ≤ e := by
    by_contra hc
    have : 2 ^ (e + 1) ≤ 2 ^ 53 := Nat.pow_le_pow_right (by norm_num) (by omega)
    omega
  have hp : ulpExp v 1 = ((e - 52 : ℕ) : ℤ) := by
    unfold ulpExp
    rw [he]
    omega
  unfold roundPos significand scale2
  simp only [hp, Int.natCast_nonneg, if_true, Int.toNat_natCast, one_mul]
  split
  · simp
  · intro hc
    injection hc with hc
    have hm : v / 2 ^ (e - 52) ≤ roundHalfEven v (2 ^ (e - 52)) :=
      (roundHalfEven_bounds v (2 ^ (e - 52))).1
    have hq : 2 ^ 52 ≤ v / 2 ^ (e - 52) := by
      rw [Nat.le_div_iff_mul_le (by positivity), ← pow_add]
      have : 52 + (e - 52) = e := by omega
      rw [this]
      exact h1
    have hbig : 2 ^ 53 ≤ roundHalfEven v (2 ^ (e - 52)) * 2 ^ (e - 52) := by
      have h2p : 2 ≤ 2 ^ (e - 52) := by
        calc 2 = 2 ^ 1 := by norm_num
          _ ≤ 2 ^ (e - 52) := Nat.pow_le_pow_right (by norm_num) (by omega)
      calc 2 ^ 53 = 2 ^ 52 * 2 := by norm_num
        _ ≤ roundHalfEven v (2 ^ (e - 52)) * 2 ^ (e - 52) :=
          Nat.mul_le_mul (le_trans hq hm) h2p
    have hc' : roundHalfEven v (2 ^ (e - 52)) * 2 ^ (e - 52) = n := by exact_mod_cast hc
    omega

/-- Rounding to a double is exact on whole numbers below `2 ^ 53`, and no other
whole number rounds to one of them. -/
theorem roundPos_nat_eq (v n : Nat) (hv : 1 ≤ v) (hn : n < 2 ^ 53) :
    roundPos v 1 = .fin n ↔ v = n := by
  constructor
  · intro h
    by_cases hlt : v < 2 ^ 53
    · rw [roundPos_nat_small v hv hlt] at h
      injection h with h
      exact_mod_cast h
    · exact absurd h (roundPos_nat_large v n (by omega) hn)
  · intro h
    subst h
    exact roundPos_nat_small v hv hn

theorem digits_length_step (n : Nat) (h : 10 ≤ n) :
    (digits n).length = (digits (n / 10)).length + 1 := by
  rw [digits_large n h, String.length_append, digits_length_small (n % 10) (by omega)]

theorem digits_length_bounds (n : Nat) (h : 1 ≤ n) :
    10 ^ ((digits n).length - 1) ≤ n ∧ n < 10 ^ (digits n).length := by
  induction n using Nat.strong_induction_on with
  | _ n ih =>
    by_cases hs : n < 10
    · rw [digits_length_small n hs]
      simp
      omega
    · obtain ⟨h1, h2⟩ := ih (n / 10) (by omega) (by omega)
      rw [digits_length_step n (by omega)]
      have hl : 1 ≤ (digits (n / 10)).length := by
        by_cases h3 : n / 10 < 10
        · rw [digits_length_small _ h3]
        · have := digits_length_large (n / 10) (by omega)
          omega
      obtain ⟨L, hL⟩ : ∃ L, (digits (n / 10)).length = L + 1 := ⟨_, (Nat.sub_add_cancel hl).symm⟩
      rw [hL] at h1 h2 ⊢
      simp only [Nat.add_sub_cancel] at h1 ⊢
      rw [pow_succ] at h2 ⊢
      rw [pow_succ]
      constructor <;> omega

theorem zeros_succ (z : Nat) : zeros (z + 1) = zeros z ++ "0" := by
  apply String.ext
  simp [zeros, List.replicate_succ']

theorem digits_mul_pow (s z : Nat) (hs : 1 ≤ s) : digits (s * 10 ^ z) = digits s ++ zeros z := by
  induction z with
  | zero =>
    apply String.ext
    simp [zeros]
  | succ z ih =>
    have hp : 0 < 10 ^ z := by positivity
    have h10 : 10 ≤ s * 10 ^ (z + 1) := by
      rw [pow_succ]
      nlinarith
    rw [digits_large _ h10, zeros_succ, ← String.append_assoc, ← ih]
    have e1 : s * 10 ^ (z + 1) / 10 = s * 10 ^ z := by
      rw [pow_succ, ← Nat.mul_assoc]
      exact Nat.mul_div_cancel _ (by norm_num)
    have e2 : s * 10 ^ (z + 1) % 10 = 0 := by
      rw [pow_succ, ← Nat.mul_assoc]
      exact Nat.mul_mod_left _ _
    rw [e1, e2, digits_zero]

theorem trailing_zeros (n : Nat) (h : 1 ≤ n) : ∃ z s, n = s * 10 ^ z ∧ ¬ 10 ∣ s := by
  induction n using Nat.strong_induction_on with
  | _ n ih =>
    by_cases hd : 10 ∣ n
    · obtain ⟨m, rfl⟩ := hd
      obtain ⟨z, s, hzs, hs⟩ := ih m (by omega) (by omega)
      refine ⟨z + 1, s, ?_, hs⟩
      rw [hzs, pow_succ]
      ring
    · exact ⟨0, n, by simp, hd⟩

theorem findSome_range {α : Type} (f : Nat → Option α) (r : α) (j N : Nat) (hj : j < N)
    (hnone : ∀ i, i < j → f i = none) (hsome : f j = some r) :
    (List.range N).findSome? f = some r := by
  induction N with
  | zero => omega
  | succ N ih =>
    rw [List.range_succ, List.findSome?_append]
    by_cases h : j < N
    · rw [ih h]
      rfl
    · have hjN : j = N := by omega
      subst hjN
      have : (List.range j).findSome? f = none := by
        rw [List.findSome?_eq_none_iff]
        intro x hx
        exact hnone x (List.mem_range.mp hx)
      rw [this]
      simp [hsome]

theorem candidate_valid_iff (n k t a : Nat) (nn : ℤ) (hn : n < 2 ^ 53) :
    (if 10 ^ (k - 1) ≤ t ∧ t < 10 ^ k ∧
        roundPos (scale10 t (a : ℤ)).1 (scale10 t (a : ℤ)).2 = .fin (n : ℚ)
      then some (nn, t) else none) =
    if 10 ^ (k - 1) ≤ t ∧ t < 10 ^ k ∧ t * 10 ^ a = n then some (nn, t) else none := by
  by_cases h1 : 10 ^ (k - 1) ≤ t
  · have ht : 1 ≤ t := le_trans (Nat.one_le_pow _ _ (by norm_num)) h1
    have hv : 1 ≤ t * 10 ^ a := Nat.mul_pos ht (by positivity)
    have := roundPos_nat_eq (t * 10 ^ a) n hv hn
    simp only [scale10, Int.natCast_nonneg, if_true, Int.toNat_natCast, this]
  · simp [h1]

theorem digitCandidates_nat (n k D : Nat) (hn1 : 1 ≤ n) (hn : n < 2 ^ 53)
    (hD : (digits n).length = D) (hkD : k ≤ D) :
    digitCandidates (n : ℚ) k =
      [0, 1, 2].flatMap fun i =>
        [n / 10 ^ (D + i - k), n / 10 ^ (D + i - k) + 1].filterMap fun t =>
          if 10 ^ (k - 1) ≤ t ∧ t < 10 ^ k ∧ t * 10 ^ (D + i - k) = n
          then some (((D + i : ℕ) : ℤ), t) else none := by
  have e0 : ((D : ℤ) - (k : ℤ)) = ((D + 0 - k : ℕ) : ℤ) := by omega
  have e1 : ((D : ℤ) + 1 - (k : ℤ)) = ((D + 1 - k : ℕ) : ℤ) := by omega
  have e2 : ((D : ℤ) + 2 - (k : ℤ)) = ((D + 2 - k : ℕ) : ℤ) := by omega
  unfold digitCandidates decExpEstimate
  simp only [Rat.num_natCast, Int.natAbs_ofNat, Rat.den_natCast, hn1, if_true, Nat.div_one, hD,
    one_mul, List.flatMap_cons, List.flatMap_nil, List.filterMap_cons, List.filterMap_nil,
    e0, e1, e2, Int.natCast_nonneg, Int.toNat_natCast, candidate_valid_iff _ _ _ _ _ hn]
  simp

theorem not_mul_pow_eq (s z t a : Nat) (hs : ¬ 10 ∣ s) (ha : z < a) :
    t * 10 ^ a ≠ s * 10 ^ z := by
  intro h
  obtain ⟨b, rfl⟩ : ∃ b, a = z + 1 + b := ⟨a - (z + 1), by omega⟩
  have hp : 0 < 10 ^ z := by positivity
  have : t * 10 ^ b * 10 * 10 ^ z = s * 10 ^ z := by
    rw [← h]
    ring
  have h2 := Nat.eq_of_mul_eq_mul_right hp this
  exact hs ⟨t * 10 ^ b, by rw [← h2]; ring⟩

theorem digitCandidates_short (s z k : Nat) (hs : ¬ 10 ∣ s) (hn1 : 1 ≤ s * 10 ^ z)
    (hn : s * 10 ^ z < 2 ^ 53) (hk : k < (digits s).length) :
    digitCandidates ((s * 10 ^ z : ℕ) : ℚ) k = [] := by
  have hs1 : 1 ≤ s := by
    rcases Nat.eq_zero_or_pos s with h | h
    · simp [h] at hs
    · exact h
  have hD : (digits (s * 10 ^ z)).length = (digits s).length + z := by
    rw [digits_mul_pow s z hs1, String.length_append]
    simp [zeros]
  rw [digitCandidates_nat _ k _ hn1 hn hD (by omega)]
  have h0 := fun t => not_mul_pow_eq s z t ((digits s).length + z - k) hs (by omega)
  have h1 := fun t => not_mul_pow_eq s z t ((digits s).length + z + 1 - k) hs (by omega)
  have h2 := fun t => not_mul_pow_eq s z t ((digits s).length + z + 2 - k) hs (by omega)
  simp [h0, h1, h2]

theorem digitCandidates_exact (s z : Nat) (hs : ¬ 10 ∣ s) (hn1 : 1 ≤ s * 10 ^ z)
    (hn : s * 10 ^ z < 2 ^ 53) :
    digitCandidates ((s * 10 ^ z : ℕ) : ℚ) (digits s).length =
      [((((digits s).length + z : ℕ) : ℤ), s)] := by
  have hs1 : 1 ≤ s := by
    rcases Nat.eq_zero_or_pos s with h | h
    · simp [h] at hs
    · exact h
  have hD : (digits (s * 10 ^ z)).length = (digits s).length + z := by
    rw [digits_mul_pow s z hs1, String.length_append]
    simp [zeros]
  obtain ⟨hlo, hhi⟩ := digits_length_bounds s hs1
  have hK : 1 ≤ (digits s).length := by
    by_contra hc
    have : (digits s).length = 0 := by omega
    rw [this] at hhi
    simp at hhi
    omega
  rw [digitCandidates_nat _ _ _ hn1 hn hD (by omega)]
  have hp : 0 < 10 ^ z := by positivity
  have e0 : (digits s).length + z - (digits s).length = z := by omega
  have e1 : (digits s).length + z + 1 - (digits s).length = z + 1 := by omega
  have e2 : (digits s).length + z + 2 - (digits s).length = z + 2 := by omega
  have h1 := fun t => not_mul_pow_eq s z t (z + 1) hs (by omega)
  have h2 := fun t => not_mul_pow_eq s z t (z + 2) hs (by omega)
  have hdiv : s * 10 ^ z / 10 ^ z = s := Nat.mul_div_cancel _ hp
  have hne : (s + 1) * 10 ^ z ≠ s * 10 ^ z := by
    intro h
    have := Nat.eq_of_mul_eq_mul_right hp h
    omega
  simp [e0, e1, e2, h1, h2, hdiv, hne, hlo, hhi]

/-- The shortest digit string of the whole number `s * 10 ^ z` below `2 ^ 53`,
`s` not ending in zero, is `s` itself. -/
theorem shortestDigits_nat (s z : Nat) (hs : ¬ 10 ∣ s) (hn1 : 1 ≤ s * 10 ^ z)
    (hn : s * 10 ^ z < 2 ^ 53) :
    shortestDigits ((s * 10 ^ z : ℕ) : ℚ) =
      ((digits s).length, (((digits s).length + z : ℕ) : ℤ), s) := by
  have hs1 : 1 ≤ s := by
    rcases Nat.eq_zero_or_pos s with h | h
    · simp [h] at hs
    · exact h
  have hD : (digits (s * 10 ^ z)).length = (digits s).length + z := by
    rw [digits_mul_pow s z hs1, String.length_append]
    simp [zeros]
  obtain ⟨hlo, hhi⟩ := digits_length_bounds s hs1
  obtain ⟨hlo2, -⟩ := digits_length_bounds _ hn1
  have hK : 1 ≤ (digits s).length := by
    by_contra hc
    have : (digits s).length = 0 := by omega
    rw [this] at hhi
    simp at hhi
    omega
  have hK17 : (digits s).length + z ≤ 16 := by
    by_contra hc
    rw [hD] at hlo2
    have : 10 ^ 16 ≤ 10 ^ ((digits s).length + z - 1) :=
      Nat.pow_le_pow_right (by norm_num) (by omega)
    have h53 : (2 : ℕ) ^ 53 < 10 ^ 16 := by norm_num
    omega
  unfold shortestDigits
  rw [findSome_range _ ((digits s).length, (((digits s).length + z : ℕ) : ℤ), s)
    ((digits s).length - 1) 17 (by omega)]
  · intro i hi
    rw [digitCandidates_short s z (i + 1) hs hn1 hn (by omega)]
    rfl
  · have e : (digits s).length - 1 + 1 = (digits s).length := by omega
    rw [e, digitCandidates_exact s z hs hn1 hn]
    rfl

/-- A whole number below `2 ^ 53` prints as its decimal expansion. -/
theorem positiveToString_nat (n : Nat) (hn1 : 1 ≤ n) (hn : n < 2 ^ 53) :
    layoutDigits (shortestDigits (n : ℚ)).1 (shortestDigits (n : ℚ)).2.1
      (shortestDigits (n : ℚ)).2.2 = digits n := by
  obtain ⟨z, s, rfl, hs⟩ := trailing_zeros n hn1
  have hs1 : 1 ≤ s := by
    rcases Nat.eq_zero_or_pos s with h | h
    · simp [h] at hs
    · exact h
  have hD : (digits (s * 10 ^ z)).length = (digits s).length + z := by
    rw [digits_mul_pow s z hs1, String.length_append]
    simp [zeros]
  obtain ⟨hlo2, -⟩ := digits_length_bounds _ hn1
  have hK17 : (digits s).length + z ≤ 16 := by
    by_contra hc
    rw [hD] at hlo2
    have : 10 ^ 16 ≤ 10 ^ ((digits s).length + z - 1) :=
      Nat.pow_le_pow_right (by norm_num) (by omega)
    have h53 : (2 : ℕ) ^ 53 < 10 ^ 16 := by norm_num
    omega
  rw [shortestDigits_nat s z hs hn1 hn, digits_mul_pow s z hs1]
  unfold layoutDigits
  simp only
  rw [if_pos (by constructor <;> omega)]
  congr 2
  omega

/-! ## Air quality -/

theorem iaqQuality_fin (q : ℚ) :
    iaqQuality (.num (.fin q)) = .ok
      (if q < 50 then "Good" else if q < 100 then "Acceptable"
        else if q < 150 then "Little Bad" else if q < 200 then "Bad" else "Very Bad") := by
  simp only [iaqQuality, JVal.ltLit, JVal.toNumber, JNum.lt, Except.map, bind, Except.bind,
    pure, Except.pure, Nat.cast_ofNat, decide_eq_true_eq]
  split_ifs <;> rfl

theorem formatIAQ_fin (q : ℚ) :
    formatIAQ (.num (.fin q)) = .ok (numberToString (.fin q) ++ " (" ++
      (if q < 50 then "Good" else if q < 100 then "Acceptable"
        else if q < 150 then "Little Bad" else if q < 200 then "Bad" else "Very Bad") ++
      ")") := by
  simp only [formatIAQ, iaqQuality_fin, JVal.toStr, bind, Except.bind, pure, Except.pure]

theorem numberToString_nat (n : ℕ) (h : n < 2 ^ 53) : numberToString (.fin n) = digits n := by
  unfold numberToString
  by_cases h0 : n = 0
  · subst h0
    simp [digits_zero]
  · have hpos : (0 : ℚ) < n := by exact_mod_cast Nat.pos_of_ne_zero h0
    have hne : (n : ℚ) ≠ 0 := ne_of_gt hpos
    simp only [hne, if_false, not_lt.mpr (le_of_lt hpos)]
    unfold positiveToString
    exact positiveToString_nat n (Nat.pos_of_ne_zero h0) h

/-- C9: for every finite index the text of `formatIAQ` is the text of the
number (its decimal digits when it is a whole number below `2 ^ 53`) followed
by one label in parentheses, chosen by the thresholds 50, 100, 150 and 200;
the infinities follow the same thresholds; every number value, finite or not,
gets the text of the number and exactly one of the five labels; a larger index
never gets a better label; and `formatIAQ(42)` is `42 (Good)`,
`formatIAQ(210)` is `210 (Very Bad)`. -/
theorem formatIAQ_spec :
    (∀ q : ℚ,
      (q < 50 →
        formatIAQ (.num (.fin q)) = .ok (numberToString (.fin q) ++ " (" ++ "Good" ++ ")")) ∧
      (50 ≤ q → q < 100 →
        formatIAQ (.num (.fin q)) =
          .ok (numberToString (.fin q) ++ " (" ++ "Acceptable" ++ ")")) ∧
      (100 ≤ q → q < 150 →
        formatIAQ (.num (.fin q)) =
          .ok (numberToString (.fin q) ++ " (" ++ "Little Bad" ++ ")")) ∧
      (150 ≤ q → q < 200 →
        formatIAQ (.num (.fin q)) = .ok (numberToString (.fin q) ++ " (" ++ "Bad" ++ ")")) ∧
      (200 ≤ q →
        formatIAQ (.num (.fin q)) =
          .ok (numberToString (.fin q) ++ " (" ++ "Very Bad" ++ ")"))) ∧
    formatIAQ (.num .negInf) = .ok "-Infinity (Good)" ∧
    formatIAQ (.num .posInf) = .ok "Infinity (Very Bad)" ∧
    (∀ x : JNum, ∃ label ∈ ["Good", "Acceptable", "Little Bad", "Bad", "Very Bad"],
      formatIAQ (.num x) = .ok (numberToString x ++ " (" ++ label ++ ")")) ∧
    (∀ n : ℕ, n < 2 ^ 53 → numberToString (.fin n) = digits n) ∧
    (∀ a b : ℚ, a ≤ b → ∃ la lb, iaqQuality (.num (.fin a)) = .ok la ∧
      iaqQuality (.num (.fin b)) = .ok lb ∧ qualityRank la ≤ qualityRank lb) ∧
    formatIAQ (.num (.fin 42)) = .ok "42 (Good)" ∧
    formatIAQ (.num (.fin 210)) = .ok "210 (Very Bad)" := by
  refine ⟨fun q => ⟨?_, ?_, ?_, ?_, ?_⟩, by decide!, by decide!, ?_, numberToString_nat, ?_,
    by decide!, by decide!⟩
  · intro h
    rw [formatIAQ_fin, if_pos h]
  · intro h1 h2
    rw [formatIAQ_fin, if_neg (not_lt.mpr h1), if_pos h2]
  · intro h1 h2
    rw [formatIAQ_fin, if_neg (by linarith), if_neg (not_lt.mpr h1), if_pos h2]
  · intro h1 h2
    rw [formatIAQ_fin, if_neg (by linarith), if_neg (by linarith), if_neg (not_lt.mpr h1),
      if_pos h2]
  · intro h1
    rw [formatIAQ_fin, if_neg (by linarith), if_neg (by linarith), if_neg (by linarith),
      if_neg (not_lt.mpr h1)]
  · intro x
    cases x with
    | fin q =>
      rw [formatIAQ_fin]
      split_ifs
      · exact ⟨"Good", by simp, rfl⟩
      · exact ⟨"Acceptable", by simp, rfl⟩
      · exact ⟨"Little Bad", by simp, rfl⟩
      · exact ⟨"Bad", by simp, rfl⟩
      · exact ⟨"Very Bad", by simp, rfl⟩
    | posInf => exact ⟨"Very Bad", by simp, rfl⟩
    | negInf => exact ⟨"Good", by simp, rfl⟩
    | nan => exact ⟨"Very Bad", by simp, rfl⟩
  · intro a b hab
    refine ⟨_, _, iaqQuality_fin a, iaqQuality_fin b, ?_⟩
    split_ifs <;> first | decide | (exfalso; linarith)

/-- C9 at one index in each of the five ranges, at the whole number 75 and at
the pair 75 and 120. -/
theorem formatIAQ_spec_witness :
    formatIAQ (.num (.fin 30)) = .ok (numberToString (.fin 30) ++ " (" ++ "Good" ++ ")") ∧
    formatIAQ (.num (.fin 75)) =
      .ok (numberToString (.fin 75) ++ " (" ++ "Acceptable" ++ ")") ∧
    formatIAQ (.num (.fin 120)) =
      .ok (numberToString (.fin 120) ++ " (" ++ "Little Bad" ++ ")") ∧
    formatIAQ (.num (.fin 170)) = .ok (numberToString (.fin 170) ++ " (" ++ "Bad" ++ ")") ∧
    formatIAQ (.num (.fin 250)) =
      .ok (numberToString (.fin 250) ++ " (" ++ "Very Bad" ++ ")") ∧
    numberToString (.fin (75 : ℕ)) = digits 75 ∧
    ∃ la lb, iaqQuality (.num (.fin 75)) = .ok la ∧ iaqQuality (.num (.fin 120)) = .ok lb ∧
      qualityRank la ≤ qualityRank lb :=
  ⟨(formatIAQ_spec.1 30).1 (by norm_num),
    (formatIAQ_spec.1 75).2.1 (by norm_num) (by norm_num),
    (formatIAQ_spec.1 120).2.2.1 (by norm_num) (by norm_num),
    (formatIAQ_spec.1 170).2.2.2.1 (by norm_num) (by norm_num),
    (formatIAQ_spec.1 250).2.2.2.2 (by norm_num),
    formatIAQ_spec.2.2.2.2.1 75 (by norm_num),
    formatIAQ_spec.2.2.2.2.2.1 75 120 (by norm_num)⟩

/-! ## Rounded division of whole numbers -/

theorem roundHalfEven_div (n d k : Nat) (hd : 0 < d) (hk : d < 2 ^ (k + 1)) :
    roundHalfEven (n * 2 ^ k) d / 2 ^ k = n / d := by
  obtain ⟨h1, h2, h3⟩ := roundHalfEven_bounds (n * 2 ^ k) d
  have hX : 0 < 2 ^ k := by positivity
  have hlow : n / d * 2 ^ k ≤ n * 2 ^ k / d := by
    rw [Nat.le_div_iff_mul_le hd]
    calc n / d * 2 ^ k * d = n / d * d * 2 ^ k := by ring
      _ ≤ n * 2 ^ k := Nat.mul_le_mul_right _ (Nat.div_mul_le_self n d)
  have hn : n < (n / d + 1) * d := by
    have := Nat.lt_div_mul_add hd (a := n)
    linarith [Nat.div_mul_le_self n d, Nat.mod_lt n hd, Nat.div_add_mod n d]
  have hup : n * 2 ^ k / d < (n / d + 1) * 2 ^ k := by
    rw [Nat.div_lt_iff_lt_mul hd]
    calc n * 2 ^ k < (n / d + 1) * d * 2 ^ k := Nat.mul_lt_mul_of_pos_right hn hX
      _ = (n / d + 1) * 2 ^ k * d := by ring
  have hlt : roundHalfEven (n * 2 ^ k) d < (n / d + 1) * 2 ^ k := by
    by_contra hcon
    push_neg at hcon
    have heq : roundHalfEven (n * 2 ^ k) d = n * 2 ^ k / d + 1 := by omega
    have hD : n * 2 ^ k / d + 1 = (n / d + 1) * 2 ^ k := by omega
    have hmod := h3 heq
    have hsplit := Nat.div_add_mod (n * 2 ^ k) d
    have hpow : 2 ^ (k + 1) = 2 * 2 ^ k := by ring
    have hn' : n + 1 ≤ (n / d + 1) * d := hn
    have e1 : d * (n * 2 ^ k / d) + d = d * ((n / d + 1) * 2 ^ k) := by
      rw [← hD]; ring
    have e2 : (n + 1) * 2 ^ k ≤ (n / d + 1) * d * 2 ^ k := Nat.mul_le_mul_right _ hn'
    nlinarith
  exact Nat.div_eq_of_lt_le (le_trans hlow h1) hlt

theorem floor_divLit (a b J : ℕ) (hb : 0 < b) (hJ : a / b < 2 ^ (J + 1))
    (hbJ : b < 2 ^ (53 - J)) (hJ51 : J ≤ 51) :
    (JNum.divLit (.fin a) b).floor = .fin ((a / b : ℕ) : ℚ) := by
  unfold JNum.divLit
  simp only
  by_cases ha : a = 0
  · subst ha
    simp [roundToDouble, JNum.floor]
  have hbq : (0 : ℚ) < b := by exact_mod_cast hb
  have haq : (0 : ℚ) < a := by exact_mod_cast Nat.pos_of_ne_zero ha
  have hq : (0 : ℚ) < (a : ℚ) / b := div_pos haq hbq
  generalize hqdef : (a : ℚ) / b = q at hq
  have hnum : 0 < q.num := Rat.num_pos.mpr hq
  have hd : 0 < q.den := q.den_pos
  have hcast : ((q.num.natAbs : ℕ) : ℚ) / (q.den : ℚ) = q := by
    have h1 : ((q.num.natAbs : ℕ) : ℤ) = q.num := Int.natAbs_of_nonneg hnum.le
    rw [← Int.cast_natCast, h1]
    exact Rat.num_div_den q
  have hdiv : q.num.natAbs / q.den = a / b := by
    have e1 : (⌊((q.num.natAbs : ℕ) : ℚ) / (q.den : ℚ)⌋ : ℤ) = ((q.num.natAbs / q.den : ℕ) : ℤ) :=
      Rat.floor_natCast_div_natCast _ _
    have e2 : (⌊(a : ℚ) / (b : ℚ)⌋ : ℤ) = ((a / b : ℕ) : ℤ) :=
      Rat.floor_natCast_div_natCast _ _
    rw [hcast] at e1
    rw [hqdef] at e2
    exact_mod_cast e1.symm.trans e2
  have hdb : q.den ≤ b := by
    have h := Rat.den_dvd (a : ℤ) (b : ℤ)
    rw [Rat.divInt_eq_div] at h
    push_cast at h
    rw [hqdef] at h
    exact Nat.le_of_dvd hb (by exact_mod_cast h)
  have he : floorLog2 q.num.natAbs q.den ≤ (J : ℤ) := floorLog2_le _ _ _ (hdiv ▸ hJ)
  have hp : ulpExp q.num.natAbs q.den ≤ (J : ℤ) - 52 := by
    unfold ulpExp
    have : max (floorLog2 q.num.natAbs q.den) (-1022) ≤ (J : ℤ) := max_le he (by omega)
    omega
  have hpneg : ¬ (0 ≤ ulpExp q.num.natAbs q.den) := by omega
  obtain ⟨k, hk⟩ : ∃ k : ℕ, ulpExp q.num.natAbs q.den = -(k : ℤ) :=
    ⟨(-ulpExp q.num.natAbs q.den).toNat, by omega⟩
  have hkJ : 52 - J ≤ k := by omega
  have hdk : q.den < 2 ^ (k + 1) := by
    calc q.den ≤ b := hdb
      _ < 2 ^ (53 - J) := hbJ
      _ ≤ 2 ^ (k + 1) := Nat.pow_le_pow_right (by norm_num) (by omega)
  have hround : roundToDouble q =
      .fin (mkRat (roundHalfEven (q.num.natAbs * 2 ^ k) q.den) (2 ^ k)) := by
    unfold roundToDouble
    rw [if_neg (ne_of_gt hq), if_pos hq]
    unfold roundPos significand scale2
    simp only [hk]
    have h1 : ¬ (0 ≤ -(k : ℤ)) := by rw [← hk]; exact hpneg
    have h2 : ¬ (971 < -(k : ℤ) ∨ -(k : ℤ) = 971 ∧
        2 ^ 53 ≤ roundHalfEven (q.num.natAbs * 2 ^ k) q.den) := by omega
    simp only [h1, if_false, neg_neg, Int.toNat_natCast]
    rw [if_neg h2]
  rw [hround]
  unfold JNum.floor
  simp only
  congr 1
  rw [Rat.mkRat_eq_div]
  push_cast
  have e := Rat.floor_natCast_div_natCast (roundHalfEven (q.num.natAbs * 2 ^ k) q.den) (2 ^ k)
  push_cast at e
  rw [e]
  have := roundHalfEven_div q.num.natAbs q.den k hd hdk
  rw [hdiv] at this
  have hz : ((roundHalfEven (q.num.natAbs * 2 ^ k) q.den : ℕ) : ℤ) / 2 ^ k = ((a / b : ℕ) : ℤ) := by
    exact_mod_cast this
  rw [hz, Int.cast_natCast]

/-! ## Uptime -/

theorem modLit_nat (t c : ℕ) : (JNum.fin t).modLit c = .fin ((t % c : ℕ) : ℚ) := by
  unfold JNum.modLit
  have h0 : (0 : ℚ) ≤ t := by exact_mod_cast Nat.zero_le t
  simp only [h0, if_true]
  congr 1
  rw [Rat.floor_natCast_div_natCast, ← Int.natCast_div, Int.cast_natCast]
  have h := Nat.div_add_mod t c
  have hq : (c : ℚ) * ((t / c : ℕ) : ℚ) + ((t % c : ℕ) : ℚ) = t := by exact_mod_cast h
  linarith

theorem padStart2_digits (n : ℕ) : padStart2 (digits n) = twoDigits n := by
  unfold padStart2 twoDigits
  by_cases h : n < 10
  · have hl := digits_length_small n h
    rw [if_pos (by omega), if_pos h, hl]
    rfl
  · have hl := digits_length_large n (by omega)
    rw [if_neg (by omega), if_neg h]

theorem twoDigits_length_small (n : ℕ) (h : n < 100) : (twoDigits n).length = 2 := by
  unfold twoDigits
  by_cases h10 : n < 10
  · rw [if_pos h10, String.length_append, digits_length_small n h10]
    rfl
  · rw [if_neg h10]
    have h1 := digits_length_large n (by omega)
    have h2 : (digits n).length ≤ 2 := Nat.repr_length n 2 (by norm_num) (by norm_num; omega)
    omega

theorem twoDigits_length (n : ℕ) : 2 ≤ (twoDigits n).length := by
  unfold twoDigits
  by_cases h10 : n < 10
  · rw [if_pos h10, String.length_append, digits_length_small n h10]
    decide
  · rw [if_neg h10]
    exact digits_length_large n (by omega)

theorem formatUptime_nat (ms : ℕ) (h0 : 0 < ms) (h53 : ms < 2 ^ 53) :
    formatUptime (.num (.fin ms)) = .ok (uptimeText ms) := by
  have hne : (ms : ℚ) ≠ 0 := by exact_mod_cast (Nat.pos_iff_ne_zero.mp h0)
  have ht : ms / 1000 < 2 ^ 44 := by
    have : ms < 2 ^ 44 * 1000 := by norm_num at h53 ⊢; omega
    exact Nat.div_lt_of_lt_mul (by linarith)
  have hH : ms / 1000 / 3600 < 2 ^ 33 := by
    have : ms / 1000 < 2 ^ 33 * 3600 := by norm_num at ht ⊢; omega
    exact Nat.div_lt_of_lt_mul (by linarith)
  have hM : ms / 1000 % 3600 / 60 < 2 ^ 6 := by
    have := Nat.mod_lt (ms / 1000) (show 0 < 3600 by norm_num)
    norm_num
    omega
  have e1 := floor_divLit ms 1000 43 (by norm_num) ht (by norm_num) (by norm_num)
  have e2 := floor_divLit (ms / 1000) 3600 32 (by norm_num) hH (by norm_num) (by norm_num)
  have e3 := floor_divLit (ms / 1000 % 3600) 60 5 (by norm_num) hM (by norm_num) (by norm_num)
  have s1 : numberToString (.fin ((ms / 1000 / 3600 : ℕ) : ℚ)) = digits (ms / 1000 / 3600) :=
    numberToString_nat _ (by norm_num at hH ⊢; omega)
  have s2 : numberToString (.fin ((ms / 1000 % 3600 / 60 : ℕ) : ℚ)) =
      digits (ms / 1000 % 3600 / 60) :=
    numberToString_nat _ (by norm_num at hM ⊢; omega)
  have s3 : numberToString (.fin ((ms / 1000 % 60 : ℕ) : ℚ)) = digits (ms / 1000 % 60) :=
    numberToString_nat _ (by
      have := Nat.mod_lt (ms / 1000) (show 0 < 60 by norm_num)
      norm_num
      omega)
  unfold formatUptime uptimeText
  simp only [JVal.truthy, JVal.toNumber, hne, ne_eq, not_false_eq_true, decide_True,
    Bool.not_true, Bool.false_eq_true, if_false, bind, Except.bind, pure, Except.pure]
  rw [e1, e2, modLit_nat, e3, modLit_nat, s1, s2, s3, padStart2_digits, padStart2_digits,
    padStart2_digits]

/-- C8, as stated, fails: the whole number of milliseconds `28125 * 2 ^ 77`
gives `2 ^ 70` hours, which JavaScript prints in exponent form, so the text is
`1.1805916207174113e+21:00:00` and not the hours in decimal
(`1180591620717411303424:00:00`). -/
theorem formatUptime_large :
    formatUptime (.num (.fin (2 ^ 77 * 28125))) = .ok "1.1805916207174113e+21:00:00" ∧
    formatUptime (.num (.fin (2 ^ 77 * 28125))) ≠ .ok (uptimeText (2 ^ 77 * 28125)) := by
  decide!

/-- C8, amended: `formatUptime(0)` is `00:00:00`, and for every positive whole
number of milliseconds below `2 ^ 53` the text is `H:MM:SS` where, with `t` the
whole seconds `ms / 1000`, `H` is `t / 3600` in decimal padded to at least two
digits, `MM` is `t % 3600 / 60` and `SS` is `t % 60`, each below 60 and exactly
two digits long, so that `H * 3600 + MM * 60 + SS = t`; and
`formatUptime(3661000)` is `01:01:01`. -/
theorem formatUptime_spec :
    formatUptime (.num (.fin 0)) = .ok "00:00:00" ∧
    (∀ ms : ℕ, 0 < ms → ms < 2 ^ 53 →
      formatUptime (.num (.fin ms)) = .ok (uptimeText ms) ∧
      ms / 1000 % 3600 / 60 < 60 ∧ ms / 1000 % 60 < 60 ∧
      ms / 1000 / 3600 * 3600 + ms / 1000 % 3600 / 60 * 60 + ms / 1000 % 60 = ms / 1000 ∧
      2 ≤ (twoDigits (ms / 1000 / 3600)).length ∧
      (twoDigits (ms / 1000 % 3600 / 60)).length = 2 ∧
      (twoDigits (ms / 1000 % 60)).length = 2) ∧
    formatUptime (.num (.fin 3661000)) = .ok "01:01:01" := by
  refine ⟨by decide!, fun ms h0 h53 => ⟨formatUptime_nat ms h0 h53, by omega, by omega,
    by omega, twoDigits_length _, twoDigits_length_small _ (by omega),
    twoDigits_length_small _ (by omega)⟩, by decide!⟩

/-- C8, amended, at one day and one millisecond of uptime. -/
theorem formatUptime_spec_witness :
    0 < 86400001 ∧ 86400001 < 2 ^ 53 ∧
    formatUptime (.num (.fin (86400001 : ℕ))) = .ok (uptimeText 86400001) ∧
    uptimeText 86400001 = "24:00:00" :=
  ⟨by norm_num, by norm_num,
    (formatUptime_spec.2.1 86400001 (by norm_num) (by norm_num)).1, by decide!⟩

end WeatherStation
